import Mathlib

/-!
# drivers/thermal/devfreq_cooling.c

A shallow embedding of the devfreq cooling device of the hi3660 kernel
(`drivers/thermal/devfreq_cooling.c`) and theorems about its power/state
conversions, its table builder and its cooling-state accessors.

Conventions of the embedding

* The target is arm64 (LP64): `unsigned long` and `size_t` are 64 bits wide,
  `u32`, `s32` and `unsigned int` are 32 bits wide.  Machine integers are
  natural numbers (integers for `s32`) and every C conversion that can lose
  bits is written out with an explicit `%`.
* A C function that returns an `int` status and writes an out-parameter is a
  function into `Result`: `ok v` (returned 0, wrote `v`), `fail e` (returned
  the negative errno `e`), `undefined` (the C program has no defined
  behaviour: NULL or out-of-bounds access, division by zero).
* The two build configurations of the file are selected by the boolean
  `CONFIG_HISI_IPA_THERMAL`.
* Tracing and debug output (`trace_*`, `dev_dbg`, `pr_debug`,
  `dev_warn_ratelimited`) and the bookkeeping of `cdev->current_load` and
  `cdev->current_freq` do not influence any value modelled here and are left
  out.
-/

namespace DevfreqCooling

/-! ## Machine integers -/

/-- Conversion to `u32` / `unsigned int`. -/
def to_u32 (n : Nat) : Nat := n % 2 ^ 32

/-- Conversion to `unsigned long` / `u64` / `size_t` (64 bits on arm64). -/
def to_ulong (n : Nat) : Nat := n % 2 ^ 64

/-- Conversion of an unsigned value to `s32` (two's complement wrap-around). -/
def to_s32 (n : Nat) : Int :=
  if n % 2 ^ 32 < 2 ^ 31 then ((n % 2 ^ 32 : Nat) : Int)
  else ((n % 2 ^ 32 : Nat) : Int) - 2 ^ 32

/-- Conversion of an `s32` to `unsigned int` (usual arithmetic conversions). -/
def s32_to_u32 (z : Int) : Nat := (z % 2 ^ 32).toNat

/-- Conversion of an `s32` to `unsigned long` (usual arithmetic conversions). -/
def s32_to_ulong (z : Int) : Nat := (z % 2 ^ 64).toNat

/-- The largest `unsigned long`. -/
def ULONG_MAX : Nat := 2 ^ 64 - 1

/-- Errno values of `include/uapi/asm-generic/errno-base.h`. -/
def EAGAIN : Int := 11

/-- Errno value: out of memory. -/
def ENOMEM : Int := 12

/-- Errno value: no such device. -/
def ENODEV : Int := 19

/-- Errno value: invalid argument. -/
def EINVAL : Int := 22

/-- Errno value: result out of range. -/
def ERANGE : Int := 34

/-- The value `-1UL` of `include/linux/thermal.h`: no state found. -/
def THERMAL_CSTATE_INVALID : Nat := ULONG_MAX

/-- The value `((u32)~0)` of `include/linux/thermal.h`. -/
def THERMAL_NO_LIMIT : Nat := 2 ^ 32 - 1

/-- Outcome of a C function with an `int` status and an out-parameter. -/
inductive Result (α : Type) where
  | ok (v : α) : Result α
  | fail (errno : Int) : Result α
  | undefined : Result α
  deriving DecidableEq, Repr

/-! ## Data model -/

/-- Modelled from the spec: an operating point of the Operating Point Source
(`struct dev_pm_opp` of the OPP library, which is not part of this file): a
frequency in Hz, its voltage in microvolts and whether the point is currently
available. -/
structure dev_pm_opp where
  rate : Nat
  u_volt : Nat
  available : Bool
  deriving DecidableEq, Repr

/-- The fields of `struct devfreq_dev_status` read here (all `unsigned long`). -/
structure devfreq_dev_status where
  total_time : Nat
  busy_time : Nat
  current_frequency : Nat
  deriving DecidableEq, Repr

/-- The fields of `struct devfreq` used here; `opps` is the operating-point
table of `df->dev.parent`. -/
structure devfreq where
  opps : List dev_pm_opp
  max_freq : Nat
  last_status : devfreq_dev_status
  deriving DecidableEq, Repr

/-- The power model `struct devfreq_cooling_power`: two optional callbacks
returning `unsigned long` and the coefficient of the built-in formula. -/
structure devfreq_cooling_power where
  get_static_power : Option (Nat → Nat)
  get_dynamic_power : Option (Nat → Nat → Nat)
  dyn_power_coeff : Nat

/-- The cooling device `struct devfreq_cooling_device`.  `freq_table` and
`power_table` are the `u32` arrays behind the two pointers (a NULL
`power_table` is `none`, a NULL `freq_table` is the empty list). -/
structure devfreq_cooling_device where
  devfreq : devfreq
  cooling_state : Nat
  power_table : Option (List Nat)
  freq_table : List Nat
  freq_table_size : Nat
  power_ops : Option devfreq_cooling_power

/-! ## The OPP library (external collaborator) -/

/-- Modelled from the spec: `dev_pm_opp_get_opp_count`, the number of
available operating points the source reports. -/
def dev_pm_opp_get_opp_count (opps : List dev_pm_opp) : Nat :=
  (opps.filter (fun o => o.available)).length

/-- Modelled from the spec: the search behind `dev_pm_opp_find_freq_floor`,
"the highest available operating point at or below this ceiling". -/
def find_freq_floor : List dev_pm_opp → Nat → Option dev_pm_opp
  | [], _ => none
  | o :: rest, freq =>
    match find_freq_floor rest freq with
    | some b =>
      if o.available = true ∧ o.rate ≤ freq ∧ b.rate < o.rate then some o else some b
    | none =>
      if o.available = true ∧ o.rate ≤ freq then some o else none

/-- Modelled from the spec: `dev_pm_opp_find_freq_floor`; the error pointer
is `-ERANGE` when no operating point is resolved. -/
def dev_pm_opp_find_freq_floor (opps : List dev_pm_opp) (freq : Nat) :
    Except Int dev_pm_opp :=
  match find_freq_floor opps freq with
  | some o => Except.ok o
  | none => Except.error (-ERANGE)

/-- Modelled from the spec: `dev_pm_opp_find_freq_exact`, the operating point
with exactly this frequency and this availability, `-ERANGE` when there is
none. -/
def dev_pm_opp_find_freq_exact (opps : List dev_pm_opp) (freq : Nat)
    (available : Bool) : Except Int dev_pm_opp :=
  match opps.find? (fun o => decide (o.rate = freq) && (o.available == available)) with
  | some o => Except.ok o
  | none => Except.error (-ERANGE)

/-- Modelled from the spec: `dev_pm_opp_get_voltage`, the voltage of an
operating point in microvolts, and 0 for an error pointer. -/
def dev_pm_opp_get_voltage : Except Int dev_pm_opp → Nat
  | Except.ok o => o.u_volt
  | Except.error _ => 0

/-! ## Power model -/

/-- The function `get_static_power` (lines 271-300). -/
def get_static_power (dfc : devfreq_cooling_device) (freq : Nat) : Option Nat :=
  match dfc.power_ops with
  | none => none
  | some ops =>
    match ops.get_static_power with
    | none => some 0
    | some f =>
      let opp := dev_pm_opp_find_freq_exact dfc.devfreq.opps freq true
      let opp :=
        match opp with
        | Except.error e =>
          if e = -ERANGE then dev_pm_opp_find_freq_exact dfc.devfreq.opps freq false
          else opp
        | Except.ok _ => opp
      let voltage := dev_pm_opp_get_voltage opp / 1000
      if voltage = 0 then some 0 else some (to_ulong (f voltage))

/-- The function `get_dynamic_power` (lines 314-330). -/
def get_dynamic_power (dfc : devfreq_cooling_device) (freq voltage : Nat) :
    Option Nat :=
  match dfc.power_ops with
  | none => none
  | some dfc_power =>
    match dfc_power.get_dynamic_power with
    | some f => some (to_ulong (f freq voltage))
    | none =>
      let freq_mhz := to_u32 (freq / 1000000)
      let power := to_ulong (to_ulong (to_ulong (to_ulong dfc_power.dyn_power_coeff
        * freq_mhz) * voltage) * voltage)
      some (power / 1000000000)

/-! ## State accessors and power conversions -/

/-- The loop of `freq_get_state`: `n` iterations left, at index `i`. -/
def freq_get_state_loop (dfc : devfreq_cooling_device) (freq : Nat) :
    Nat → Nat → Option Nat
  | 0, _ => some THERMAL_CSTATE_INVALID
  | n + 1, i =>
    match dfc.freq_table[i]? with
    | none => none
    | some f => if f = freq then some i else freq_get_state_loop dfc freq n (i + 1)

/-- The function `freq_get_state` (lines 248-259); `none` when the scan leaves
the table. -/
def freq_get_state (dfc : devfreq_cooling_device) (freq : Nat) : Option Nat :=
  freq_get_state_loop dfc freq dfc.freq_table_size 0

/-- The function `devfreq_cooling_get_max_state` (lines 156-164); the
subtraction is in `size_t`. -/
def devfreq_cooling_get_max_state (dfc : devfreq_cooling_device) : Nat :=
  to_ulong (dfc.freq_table_size + 2 ^ 64 - 1)

/-- The function `devfreq_cooling_get_cur_state` (lines 166-174). -/
def devfreq_cooling_get_cur_state (dfc : devfreq_cooling_device) : Nat :=
  dfc.cooling_state

/-- The function `devfreq_cooling_get_requested_power` (lines 332-380). -/
def devfreq_cooling_get_requested_power (CONFIG_HISI_IPA_THERMAL : Bool)
    (dfc : devfreq_cooling_device) : Result Nat :=
  let status := dfc.devfreq.last_status
  let freq := status.current_frequency
  match freq_get_state dfc freq with
  | none => Result.undefined
  | some state =>
    if state = THERMAL_CSTATE_INVALID then Result.fail (-EAGAIN)
    else
      match dfc.power_table.bind (fun t => t[state]?) with
      | none => Result.undefined
      | some dyn_power =>
        let scaled : Option Nat :=
          if status.total_time ≠ 0 then
            some (to_u32 (to_ulong (dyn_power * status.busy_time) / status.total_time))
          else if CONFIG_HISI_IPA_THERMAL then some dyn_power
          else none
        match scaled with
        | none => Result.undefined
        | some dyn_power =>
          match get_static_power dfc freq with
          | none => Result.undefined
          | some sp =>
            let static_power := to_u32 sp
            Result.ok (to_u32 (dyn_power + static_power))

/-- The function `devfreq_cooling_state2power` (lines 382-399). -/
def devfreq_cooling_state2power (dfc : devfreq_cooling_device) (state : Nat) :
    Result Nat :=
  if state ≥ dfc.freq_table_size then Result.fail (-EINVAL)
  else
    match dfc.freq_table[state]? with
    | none => Result.undefined
    | some freq =>
      match get_static_power dfc freq with
      | none => Result.undefined
      | some sp =>
        let static_power := to_u32 sp
        match dfc.power_table.bind (fun t => t[state]?) with
        | none => Result.undefined
        | some p => Result.ok (to_u32 (p + static_power))

/-- The search loop of `devfreq_cooling_power2state` (lines 427-429): `n`
iterations left, at index `i`; the comparison is made in `unsigned int`. -/
def power2state_loop (power_table : Option (List Nat)) (dyn_power : Int) :
    Nat → Nat → Option Nat
  | 0, i => some i
  | n + 1, i =>
    match power_table.bind (fun t => t[i]?) with
    | none => none
    | some p =>
      if s32_to_u32 dyn_power ≥ p then some i
      else power2state_loop power_table dyn_power n (i + 1)

/-- The utilisation-scaled dynamic power budget of
`devfreq_cooling_power2state` (lines 416-421), an `s32`. -/
def power2state_dyn_power (power static_power total_time busy_time : Nat) : Int :=
  let dyn_power : Int := to_s32 (to_u32 (power + 2 ^ 32 - static_power))
  let dyn_power : Int := if dyn_power > 0 then dyn_power else 0
  let busy_time := if busy_time ≠ 0 then busy_time else 1
  to_s32 (to_ulong (s32_to_ulong dyn_power * total_time) / busy_time)

/-- The function `devfreq_cooling_power2state` (lines 401-438); `power` is a
`u32`. -/
def devfreq_cooling_power2state (dfc : devfreq_cooling_device) (power : Nat) :
    Result Nat :=
  let status := dfc.devfreq.last_status
  let freq := status.current_frequency
  match get_static_power dfc freq with
  | none => Result.undefined
  | some sp =>
    let static_power := to_u32 sp
    let dyn_power :=
      power2state_dyn_power power static_power status.total_time status.busy_time
    match power2state_loop dfc.power_table dyn_power
        (to_ulong (dfc.freq_table_size + 2 ^ 64 - 1)) 0 with
    | none => Result.undefined
    | some i => Result.ok i

/-! ## The State Applier and `set_cur_state` -/

/-- Results of the collaborators that this file calls and does not implement:
whether the two `kcalloc` calls of the table builder succeed, the status of
`update_devfreq`, and the status the OPP library reports when asked to enable
(`true`) or disable (`false`) the operating point of a frequency. -/
structure External where
  kcalloc_power_table : Bool
  kcalloc_freq_table : Bool
  update_devfreq : Int
  opp_set_availability : Nat → Bool → Int

/-- Modelled from the spec: `dev_pm_opp_enable` / `dev_pm_opp_disable` of the
OPP library ("enable/disable operating points"): unless the library reports an
error, the operating point of that frequency gets the requested availability;
`-ENODEV` when the source holds no such operating point. -/
def opp_set_availability (ext : External) (opps : List dev_pm_opp) (freq : Nat)
    (availability_req : Bool) : Int × List dev_pm_opp :=
  let r := ext.opp_set_availability freq availability_req
  if r ≠ 0 then (r, opps)
  else if opps.any (fun o => decide (o.rate = freq)) then
    (0, opps.map (fun o =>
      if o.rate = freq then { o with available := availability_req } else o))
  else (-ENODEV, opps)

/-- Modelled from the spec: `dev_pm_opp_enable`. -/
def dev_pm_opp_enable (ext : External) (opps : List dev_pm_opp) (freq : Nat) :
    Int × List dev_pm_opp :=
  opp_set_availability ext opps freq true

/-- Modelled from the spec: `dev_pm_opp_disable`. -/
def dev_pm_opp_disable (ext : External) (opps : List dev_pm_opp) (freq : Nat) :
    Int × List dev_pm_opp :=
  opp_set_availability ext opps freq false

/-- The loop of `partition_enable_opps` (lines 128-150): `n` iterations left,
at index `i`, with the current operating-point table. -/
def partition_enable_opps_loop (ext : External) (freq_table : List Nat)
    (cdev_state : Nat) : Nat → Nat → List dev_pm_opp → Option (Int × List dev_pm_opp)
  | 0, _, opps => some (0, opps)
  | n + 1, i, opps =>
    match freq_table[i]? with
    | none => none
    | some freq =>
      let want_enable : Bool := decide (i ≥ cdev_state)
      match dev_pm_opp_find_freq_exact opps freq (!want_enable) with
      | Except.error e =>
        if e = -ERANGE then partition_enable_opps_loop ext freq_table cdev_state n (i + 1) opps
        else some (e, opps)
      | Except.ok _ =>
        let r :=
          if want_enable then dev_pm_opp_enable ext opps freq
          else dev_pm_opp_disable ext opps freq
        if r.1 ≠ 0 then some (r.1, r.2)
        else partition_enable_opps_loop ext freq_table cdev_state n (i + 1) r.2

/-- The function `partition_enable_opps` (lines 122-153): the status and the
operating-point table it leaves behind. -/
def partition_enable_opps (ext : External) (dfc : devfreq_cooling_device)
    (cdev_state : Nat) : Option (Int × List dev_pm_opp) :=
  partition_enable_opps_loop ext dfc.freq_table cdev_state dfc.freq_table_size 0
    dfc.devfreq.opps

/-- The `IPA_GPU` entries of the global arrays of the
`CONFIG_HISI_IPA_THERMAL` build (all `unsigned int`). -/
structure hisi_ipa where
  g_ipa_freq_limit : Nat
  g_ipa_soc_freq_limit : Nat
  g_ipa_board_freq_limit : Nat
  g_ipa_board_state : Nat
  g_ipa_soc_state : Nat
  deriving DecidableEq, Repr

/-- The state `devfreq_cooling_set_cur_state` works on: the cooling device,
the IPA globals, and a count of the invocations of the State Applier
(`partition_enable_opps`, respectively `update_devfreq`) made so far. -/
structure cooling_system where
  dfc : devfreq_cooling_device
  ipa : hisi_ipa
  applier_calls : Nat

/-- Lines 189-193 of `devfreq_cooling_set_cur_state`: the soc and board
frequency limits follow their states when these are table indices. -/
def set_cur_state_ipa_limits (dfc : devfreq_cooling_device) (ipa : hisi_ipa) :
    Option hisi_ipa :=
  let ipa1 : Option hisi_ipa :=
    if ipa.g_ipa_soc_state < dfc.freq_table_size then
      match dfc.freq_table[ipa.g_ipa_soc_state]? with
      | none => none
      | some f => some { ipa with g_ipa_soc_freq_limit := f }
    else some ipa
  match ipa1 with
  | none => none
  | some ipa1 =>
    if ipa1.g_ipa_board_state < dfc.freq_table_size then
      match dfc.freq_table[ipa1.g_ipa_board_state]? with
      | none => none
      | some f => some { ipa1 with g_ipa_board_freq_limit := f }
    else some ipa1

/-- Lines 195-197 of `devfreq_cooling_set_cur_state`: the requested state is
raised to the larger of the soc and board states when that is a table index. -/
def set_cur_state_limited (dfc : devfreq_cooling_device) (ipa : hisi_ipa)
    (state : Nat) : Nat :=
  let limit_state := max ipa.g_ipa_soc_state ipa.g_ipa_board_state
  if limit_state < dfc.freq_table_size then max state limit_state else state

/-- The function `devfreq_cooling_set_cur_state` (lines 176-238): the status
returned and the system it leaves behind; `none` when the C program has no
defined behaviour. -/
def devfreq_cooling_set_cur_state (CONFIG_HISI_IPA_THERMAL : Bool) (ext : External)
    (sys : cooling_system) (state : Nat) : Option (Int × cooling_system) :=
  let dfc := sys.dfc
  if CONFIG_HISI_IPA_THERMAL then
    match set_cur_state_ipa_limits dfc sys.ipa with
    | none => none
    | some ipa =>
      let state := set_cur_state_limited dfc ipa state
      if state = dfc.cooling_state then some (0, { sys with ipa := ipa })
      else
        let freq : Option (Result Nat) :=
          if state = THERMAL_NO_LIMIT then some (Result.ok 0)
          else if state ≥ dfc.freq_table_size then some (Result.fail (-EINVAL))
          else
            match dfc.freq_table[state]? with
            | none => none
            | some f => some (Result.ok f)
        match freq with
        | none => none
        | some Result.undefined => none
        | some (Result.fail e) => some (e, { sys with ipa := ipa })
        | some (Result.ok freq) =>
          let ipa := { ipa with g_ipa_freq_limit := to_u32 freq }
          -- `update_devfreq(df)` is called when the ceiling changes; its status
          -- (`ext.update_devfreq`) is only passed to `dev_dbg`
          let calls :=
            if dfc.devfreq.max_freq ≠ freq then sys.applier_calls + 1
            else sys.applier_calls
          some (0, { dfc := { dfc with cooling_state := state }, ipa := ipa,
                     applier_calls := calls })
  else
    if state = dfc.cooling_state then some (0, sys)
    else if state ≥ dfc.freq_table_size then some (-EINVAL, sys)
    else
      match partition_enable_opps ext dfc state with
      | none => none
      | some (ret, opps) =>
        let dfc := { dfc with devfreq := { dfc.devfreq with opps := opps } }
        if ret ≠ 0 then
          some (ret, { sys with dfc := dfc, applier_calls := sys.applier_calls + 1 })
        else
          some (0, { sys with dfc := { dfc with cooling_state := state },
                              applier_calls := sys.applier_calls + 1 })

/-! ## Table builder -/

/-- The loop of `devfreq_cooling_gen_tables` (lines 493-527): `n` iterations
left, `freq` the current ceiling, and the slots of the two tables filled so
far (slot `i` is written in iteration `i`, so the filled slots are a list that
grows at its end). -/
def gen_tables_loop (dfc : devfreq_cooling_device) :
    Nat → Nat → List Nat → List Nat → Result (List Nat × List Nat)
  | 0, _, freq_table, power_table => Result.ok (freq_table, power_table)
  | n + 1, freq, freq_table, power_table =>
    match dev_pm_opp_find_freq_floor dfc.devfreq.opps freq with
    | Except.error e => Result.fail e
    | Except.ok opp =>
      let freq := opp.rate
      let voltage := dev_pm_opp_get_voltage (Except.ok opp) / 1000
      if dfc.power_ops.isSome then
        match get_dynamic_power dfc freq voltage with
        | none => Result.undefined
        | some power_dyn =>
          gen_tables_loop dfc n (to_ulong (freq + 2 ^ 64 - 1))
            (freq_table ++ [to_u32 freq]) (power_table ++ [to_u32 power_dyn])
      else
        gen_tables_loop dfc n (to_ulong (freq + 2 ^ 64 - 1))
          (freq_table ++ [to_u32 freq]) power_table

/-- The function `devfreq_cooling_gen_tables` (lines 464-543): the status
returned and the device it leaves behind. -/
def devfreq_cooling_gen_tables (ext : External) (dfc : devfreq_cooling_device) :
    Option (Int × devfreq_cooling_device) :=
  let num_opps := dev_pm_opp_get_opp_count dfc.devfreq.opps
  if dfc.power_ops.isSome ∧ ext.kcalloc_power_table = false then some (-ENOMEM, dfc)
  else if ext.kcalloc_freq_table = false then some (-ENOMEM, dfc)
  else
    match gen_tables_loop dfc num_opps ULONG_MAX [] [] with
    | Result.undefined => none
    | Result.fail e => some (e, dfc)
    | Result.ok (freq_table, power_table) =>
      some (0, { dfc with
        power_table := if dfc.power_ops.isSome then some power_table else dfc.power_table,
        freq_table := freq_table,
        freq_table_size := num_opps })

/-! ## Specification-side definitions -/

/-- Specification: the dynamic power budget scaled to full utilisation,
`max(0, budget - static) * totalTime / max(busyTime, 1)` (subtraction of
natural numbers stops at 0). -/
def spec_scaledDynamic (budget static total_time busy_time : Nat) : Nat :=
  (budget - static) * total_time / max busy_time 1

/-! ## Example devices -/

/-- A power model without callbacks: no static power, built-in dynamic
formula with coefficient 0. -/
def example_power_ops : devfreq_cooling_power :=
  { get_static_power := none, get_dynamic_power := none, dyn_power_coeff := 0 }

/-- The operating points of the example device: 1000, 800 and 500 MHz. -/
def example_opps : List dev_pm_opp :=
  [{ rate := 1000000000, u_volt := 900000, available := true },
   { rate := 800000000, u_volt := 800000, available := true },
   { rate := 500000000, u_volt := 700000, available := true }]

/-- The example device of the spec: frequencies 1000, 800, 500 MHz with
dynamic powers 100, 60, 20 mW, running at 1000 MHz with the given
utilisation sample. -/
def example_dfc (total_time busy_time : Nat) : devfreq_cooling_device :=
  { devfreq :=
      { opps := example_opps, max_freq := 1000000000,
        last_status :=
          { total_time := total_time, busy_time := busy_time,
            current_frequency := 1000000000 } },
    cooling_state := 0,
    power_table := some [100, 60, 20],
    freq_table := [1000000000, 800000000, 500000000],
    freq_table_size := 3,
    power_ops := some example_power_ops }

/-- A power model whose static power callback reports `c` mW at every
voltage. -/
def example_static_ops (c : Nat) : devfreq_cooling_power :=
  { get_static_power := some (fun _ => c), get_dynamic_power := none,
    dyn_power_coeff := 0 }

/-- The example device with a constant static power of `c` mW. -/
def example_dfc_static (c total_time busy_time : Nat) : devfreq_cooling_device :=
  { example_dfc total_time busy_time with power_ops := some (example_static_ops c) }

/-- The example device with a first state of 2^31 + 100 mW. -/
def example_dfc_large (total_time busy_time : Nat) : devfreq_cooling_device :=
  { example_dfc total_time busy_time with power_table := some [2 ^ 31 + 100, 60, 20] }

/-- The example device with the frequency of state 0 stored twice. -/
def example_dfc_duplicate (total_time busy_time : Nat) : devfreq_cooling_device :=
  { example_dfc total_time busy_time with
    freq_table := [1000000000, 1000000000, 500000000] }

/-- The example device running at 900 MHz, a frequency outside its table. -/
def example_dfc_untracked : devfreq_cooling_device :=
  { example_dfc 1 1 with
    devfreq :=
      { opps := example_opps, max_freq := 1000000000,
        last_status :=
          { total_time := 1, busy_time := 1, current_frequency := 900000000 } } }

/-- Collaborators that never report an error. -/
def example_ext_ok : External :=
  { kcalloc_power_table := true, kcalloc_freq_table := true, update_devfreq := 0,
    opp_set_availability := fun _ _ => 0 }

/-- Collaborators whose State Applier fails: `update_devfreq` and the OPP
enable/disable calls report -EINVAL. -/
def example_ext_failing : External :=
  { kcalloc_power_table := true, kcalloc_freq_table := true, update_devfreq := -EINVAL,
    opp_set_availability := fun _ _ => -EINVAL }

/-- IPA globals that impose no limit: soc and board state 0. -/
def example_ipa : hisi_ipa :=
  { g_ipa_freq_limit := 0, g_ipa_soc_freq_limit := 0, g_ipa_board_freq_limit := 0,
    g_ipa_board_state := 0, g_ipa_soc_state := 0 }

/-- The example device in cooling state 0, before any State Applier call. -/
def example_sys : cooling_system :=
  { dfc := example_dfc 1 1, ipa := example_ipa, applier_calls := 0 }

/-- The example system with the soc thermal zone holding the GPU at state 2. -/
def example_sys_limited : cooling_system :=
  { example_sys with ipa := { example_ipa with g_ipa_soc_state := 2 } }

/-- What the theorems observe of an outcome of
`devfreq_cooling_set_cur_state`: the status, the cooling state read by
`devfreq_cooling_get_cur_state` and the number of State Applier calls. -/
def observe (r : Option (Int × cooling_system)) : Option (Int × Nat × Nat) :=
  r.map (fun x => (x.1, devfreq_cooling_get_cur_state x.2.dfc, x.2.applier_calls))

/-- The frequencies of the available operating points of a source, in the
order the source holds them. -/
def available_rates (opps : List dev_pm_opp) : List Nat :=
  (opps.filter (fun o => o.available)).map (fun o => o.rate)

/-- The device as `of_devfreq_cooling_register_power` hands it to the table
builder (lines 631-644): zeroed by `kzalloc`, with `devfreq` and `power_ops`
set. -/
def fresh_dfc (df : devfreq) (power_ops : Option devfreq_cooling_power) :
    devfreq_cooling_device :=
  { devfreq := df, cooling_state := 0, power_table := none, freq_table := [],
    freq_table_size := 0, power_ops := power_ops }

/-- What the theorems observe of an outcome of `devfreq_cooling_gen_tables`:
the status and the three table fields of the device. -/
def observe_tables (r : Option (Int × devfreq_cooling_device)) :
    Option (Int × List Nat × Nat × Option (List Nat)) :=
  r.map (fun x => (x.1, x.2.freq_table, x.2.freq_table_size, x.2.power_table))

/-- A devfreq device with operating points at 2^32 Hz and at 1000 Hz. -/
def example_devfreq_wide : devfreq :=
  { opps := [{ rate := 4294967296, u_volt := 900000, available := true },
             { rate := 1000, u_volt := 700000, available := true }],
    max_freq := 4294967296,
    last_status := { total_time := 0, busy_time := 0, current_frequency := 1000 } }

/-- A devfreq device whose source holds 800, 500 and 1000 MHz, in that
order, and an unavailable operating point at 900 MHz. -/
def example_devfreq_unordered : devfreq :=
  { opps := [{ rate := 800000000, u_volt := 800000, available := true },
             { rate := 900000000, u_volt := 850000, available := false },
             { rate := 500000000, u_volt := 700000, available := true },
             { rate := 1000000000, u_volt := 900000, available := true }],
    max_freq := 1000000000,
    last_status := { total_time := 0, busy_time := 0, current_frequency := 500000000 } }

/-- Collaborators whose `kcalloc` of the frequency table fails. -/
def example_ext_nomem : External :=
  { example_ext_ok with kcalloc_freq_table := false }

/-- A power model using the built-in dynamic formula with coefficient 2000
and no static power. -/
def example_analytic_ops : devfreq_cooling_power :=
  { get_static_power := none, get_dynamic_power := none, dyn_power_coeff := 2000 }

/-- A power model using the built-in dynamic formula with the coefficient
1000 * 2^31. -/
def example_huge_ops : devfreq_cooling_power :=
  { get_static_power := none, get_dynamic_power := none,
    dyn_power_coeff := 2147483648000 }

/-- A devfreq device with operating points at 1 MHz and 2 MHz, both at
1000 mV. -/
def example_devfreq_slow : devfreq :=
  { opps := [{ rate := 1000000, u_volt := 1000000, available := true },
             { rate := 2000000, u_volt := 1000000, available := true }],
    max_freq := 2000000,
    last_status := { total_time := 0, busy_time := 0, current_frequency := 1000000 } }

/-- The example device with a first state of 2^31 + 100 mW and a static power
of 2^31 mW, busy 1 of 2 time units. -/
def example_dfc_megawatt : devfreq_cooling_device :=
  { example_dfc_large 2 1 with power_ops := some (example_static_ops (2 ^ 31)) }

/-- A sequence of `devfreq_cooling_set_cur_state` calls on one device: each
call comes with the results of its collaborators and with its argument; the
statuses returned are dropped. -/
def set_cur_state_calls (CONFIG_HISI_IPA_THERMAL : Bool) :
    List (External × Nat) → cooling_system → Option cooling_system
  | [], sys => some sys
  | call :: rest, sys =>
    match devfreq_cooling_set_cur_state CONFIG_HISI_IPA_THERMAL call.1 sys call.2 with
    | none => none
    | some r => set_cur_state_calls CONFIG_HISI_IPA_THERMAL rest r.2

/-- Specification: the ceiling of step `i` of the table builder that starts
from the ceiling `c`: each step asks the source for the highest available
operating point at or below the ceiling and lowers the ceiling to one below
the frequency found (in `unsigned long`); `none` when an earlier step
resolved no operating point. -/
def spec_ceiling (opps : List dev_pm_opp) : Nat → Nat → Option Nat
  | c, 0 => some c
  | c, i + 1 =>
    match find_freq_floor opps c with
    | none => none
    | some o => spec_ceiling opps (to_ulong (o.rate + 2 ^ 64 - 1)) i

/-- A devfreq device whose source holds two available operating points at
500 MHz and one at 800 MHz. -/
def example_devfreq_twice : devfreq :=
  { opps := [{ rate := 800000000, u_volt := 800000, available := true },
             { rate := 500000000, u_volt := 700000, available := true },
             { rate := 500000000, u_volt := 750000, available := true }],
    max_freq := 800000000,
    last_status := { total_time := 0, busy_time := 0, current_frequency := 500000000 } }

/-- The device registered from `example_devfreq_unordered` without a power
model: tables [1000, 800, 500] MHz, cooling state 0. -/
def example_registered : cooling_system :=
  { dfc :=
      { devfreq := example_devfreq_unordered, cooling_state := 0, power_table := none,
        freq_table := [1000000000, 800000000, 500000000], freq_table_size := 3,
        power_ops := none },
    ipa := example_ipa, applier_calls := 0 }

/-- What the theorems observe of a system: the values read by
`devfreq_cooling_get_cur_state` and `devfreq_cooling_get_max_state`. -/
def observe_states (r : Option cooling_system) : Option (Nat × Nat) :=
  r.map (fun sys =>
    (devfreq_cooling_get_cur_state sys.dfc, devfreq_cooling_get_max_state sys.dfc))

/-- The system of a device registered from `df` with the power model
`power_ops` (lines 631-646 of `of_devfreq_cooling_register_power`; the later
steps of the registration touch neither the tables nor the cooling state):
the table builder run on the zeroed device, the given IPA globals, and no
State Applier call made yet; `none` unless the builder succeeds. -/
def registered_system (ext : External) (df : devfreq)
    (power_ops : Option devfreq_cooling_power) (ipa : hisi_ipa) : Option cooling_system :=
  match devfreq_cooling_gen_tables ext (fresh_dfc df power_ops) with
  | some (0, dfc) => some { dfc := dfc, ipa := ipa, applier_calls := 0 }
  | _ => none

/-- A power model with supplied callbacks that are monotonic in frequency and
voltage: dynamic power freq / 10^7 + voltage / 10, static power voltage /
100. -/
def example_supplied_ops : devfreq_cooling_power :=
  { get_static_power := some (fun v => v / 100),
    get_dynamic_power := some (fun f v => f / 10000000 + v / 10),
    dyn_power_coeff := 0 }

/-- A power model with supplied callbacks that are monotonic in frequency and
voltage: dynamic power 5 * freq, static power 0. -/
def example_steep_ops : devfreq_cooling_power :=
  { get_static_power := some (fun _ => 0),
    get_dynamic_power := some (fun f _ => 5 * f),
    dyn_power_coeff := 0 }

/-- What the theorems observe of a successfully built device: the powers
`devfreq_cooling_state2power` reports for the states 0, 1 and 2. -/
def observe_state2power (r : Option (Int × devfreq_cooling_device)) :
    Option (Result Nat × Result Nat × Result Nat) :=
  r.map (fun x => (devfreq_cooling_state2power x.2 0, devfreq_cooling_state2power x.2 1,
    devfreq_cooling_state2power x.2 2))

/-! ## Machine-integer lemmas -/

theorem s32_to_u32_to_s32 (n : Nat) : s32_to_u32 (to_s32 n) = n % 2 ^ 32 := by
  unfold s32_to_u32 to_s32
  split <;> omega

theorem s32_to_ulong_of_nat {n : Nat} (h : n < 2 ^ 64) : s32_to_ulong (n : Int) = n := by
  unfold s32_to_ulong
  omega

theorem power2state_clamp {power sp : Nat}
    (h1 : power < sp + 2 ^ 31) (h2 : sp ≤ power + 2 ^ 31) :
    (if to_s32 (to_u32 (power + 2 ^ 32 - sp)) > 0
      then to_s32 (to_u32 (power + 2 ^ 32 - sp)) else 0) = ((power - sp : Nat) : Int) := by
  unfold to_s32 to_u32
  split <;> split <;> omega

theorem power2state_dyn_power_exact (power sp total_time busy_time : Nat)
    (h1 : power < sp + 2 ^ 31) (h2 : sp ≤ power + 2 ^ 31)
    (hmul : (power - sp) * total_time < 2 ^ 64)
    (hq : spec_scaledDynamic power sp total_time busy_time < 2 ^ 32) :
    s32_to_u32 (power2state_dyn_power power sp total_time busy_time)
      = spec_scaledDynamic power sp total_time busy_time := by
  have hD : power - sp < 2 ^ 31 := by omega
  have hb : (if busy_time ≠ 0 then busy_time else 1) = max busy_time 1 := by
    split <;> omega
  unfold power2state_dyn_power
  simp only [power2state_clamp h1 h2, hb]
  rw [s32_to_u32_to_s32, s32_to_ulong_of_nat (by omega)]
  unfold spec_scaledDynamic at hq ⊢
  unfold to_ulong
  rw [Nat.mod_eq_of_lt hmul, Nat.mod_eq_of_lt hq]

theorem power2state_loop_spec (pt : List Nat) (d : Int) :
    ∀ n i, i + n ≤ pt.length →
      ∃ r, power2state_loop (some pt) d n i = some r ∧ i ≤ r ∧ r ≤ i + n ∧
        (∀ j p, i ≤ j → j < r → pt[j]? = some p → s32_to_u32 d < p) ∧
        ((∃ p, pt[r]? = some p ∧ p ≤ s32_to_u32 d) ∨ r = i + n) := by
  intro n
  induction n with
  | zero =>
    intro i _
    exact ⟨i, rfl, le_refl _, le_refl _, fun j p h1 h2 => by omega, Or.inr rfl⟩
  | succ n ih =>
    intro i hi
    have hlt : i < pt.length := by omega
    have hget : pt[i]? = some pt[i] := List.getElem?_eq_getElem hlt
    by_cases hfit : s32_to_u32 d ≥ pt[i]
    · refine ⟨i, ?_, le_refl _, by omega, fun j p h1 h2 => by omega, Or.inl ⟨pt[i], hget, hfit⟩⟩
      simp [power2state_loop, hget, hfit]
    · obtain ⟨r, hr, h1, h2, h3, h4⟩ := ih (i + 1) (by omega)
      refine ⟨r, ?_, by omega, by omega, ?_, ?_⟩
      · simp only [power2state_loop, Option.some_bind, hget, if_neg hfit]
        exact hr
      · intro j p hj1 hj2 hjp
        by_cases hji : j = i
        · subst hji
          rw [hget] at hjp
          cases hjp
          omega
        · exact h3 j p (by omega) hj2 hjp
      · rcases h4 with h4 | h4
        · exact Or.inl h4
        · exact Or.inr (by omega)

theorem power2state_run (dfc : devfreq_cooling_device) (pt : List Nat) (power sp : Nat)
    (hpt : dfc.power_table = some pt) (hN : dfc.freq_table_size = pt.length)
    (h1 : 1 ≤ pt.length) (hlen : pt.length < 2 ^ 64)
    (hsp : get_static_power dfc dfc.devfreq.last_status.current_frequency = some sp) :
    ∃ r, devfreq_cooling_power2state dfc power = Result.ok r ∧ r < pt.length ∧
      (∀ j p, j < r → pt[j]? = some p →
        s32_to_u32 (power2state_dyn_power power (to_u32 sp)
          dfc.devfreq.last_status.total_time dfc.devfreq.last_status.busy_time) < p) ∧
      ((∃ p, pt[r]? = some p ∧
        p ≤ s32_to_u32 (power2state_dyn_power power (to_u32 sp)
          dfc.devfreq.last_status.total_time dfc.devfreq.last_status.busy_time))
        ∨ r = pt.length - 1) := by
  have hbound : to_ulong (dfc.freq_table_size + 2 ^ 64 - 1) = pt.length - 1 := by
    unfold to_ulong
    omega
  obtain ⟨r, hr, _, h2, h3, h4⟩ := power2state_loop_spec pt
    (power2state_dyn_power power (to_u32 sp)
      dfc.devfreq.last_status.total_time dfc.devfreq.last_status.busy_time)
    (pt.length - 1) 0 (by omega)
  refine ⟨r, ?_, by omega, fun j p hj => h3 j p (Nat.zero_le _) hj, ?_⟩
  · unfold devfreq_cooling_power2state
    rw [hbound]
    dsimp only
    rw [hsp]
    dsimp only
    rw [hpt, hr]
  · rcases h4 with h4 | h4
    · exact Or.inl h4
    · exact Or.inr (by omega)

/-! ## Lemmas on `freq_get_state` and `get_requested_power` -/

theorem freq_get_state_loop_spec (dfc : devfreq_cooling_device) (freq : Nat) :
    ∀ n i, i + n ≤ dfc.freq_table.length →
      (freq_get_state_loop dfc freq n i = some THERMAL_CSTATE_INVALID ∧
        ∀ j, i ≤ j → j < i + n → dfc.freq_table[j]? ≠ some freq) ∨
      (∃ r, freq_get_state_loop dfc freq n i = some r ∧ i ≤ r ∧ r < i + n ∧
        dfc.freq_table[r]? = some freq ∧
        ∀ j, i ≤ j → j < r → dfc.freq_table[j]? ≠ some freq) := by
  intro n
  induction n with
  | zero =>
    intro i _
    exact Or.inl ⟨rfl, fun j h1 h2 => by omega⟩
  | succ n ih =>
    intro i hi
    have hlt : i < dfc.freq_table.length := by omega
    have hget : dfc.freq_table[i]? = some dfc.freq_table[i] := List.getElem?_eq_getElem hlt
    by_cases hfit : dfc.freq_table[i] = freq
    · refine Or.inr ⟨i, ?_, le_refl _, by omega, by rw [hget, hfit], fun j h1 h2 => by omega⟩
      simp only [freq_get_state_loop, hget, if_pos hfit]
    · have hstep : freq_get_state_loop dfc freq (n + 1) i
          = freq_get_state_loop dfc freq n (i + 1) := by
        simp only [freq_get_state_loop, hget, if_neg hfit]
      have hne : ∀ j, i ≤ j → j < i + 1 → dfc.freq_table[j]? ≠ some freq := by
        intro j h1 h2 hj
        have hji : j = i := by omega
        subst hji
        rw [hget] at hj
        exact hfit (Option.some.inj hj)
      rcases ih (i + 1) (by omega) with ⟨h, hall⟩ | ⟨r, h, h1, h2, h3, h4⟩
      · refine Or.inl ⟨by rw [hstep, h], fun j hj1 hj2 => ?_⟩
        by_cases hji : j < i + 1
        · exact hne j hj1 hji
        · exact hall j (by omega) (by omega)
      · refine Or.inr ⟨r, by rw [hstep, h], by omega, by omega, h3, fun j hj1 hj2 => ?_⟩
        by_cases hji : j < i + 1
        · exact hne j hj1 hji
        · exact h4 j (by omega) hj2

theorem freq_get_state_first (dfc : devfreq_cooling_device) (freq s : Nat)
    (hlen : dfc.freq_table.length = dfc.freq_table_size)
    (hs : dfc.freq_table[s]? = some freq)
    (hfirst : ∀ j, j < s → dfc.freq_table[j]? ≠ some freq) :
    freq_get_state dfc freq = some s := by
  have hslt : s < dfc.freq_table.length := by
    by_contra hge
    rw [List.getElem?_eq_none (by omega)] at hs
    cases hs
  unfold freq_get_state
  rcases freq_get_state_loop_spec dfc freq dfc.freq_table_size 0 (by omega) with
    ⟨_, hall⟩ | ⟨r, h, _, h2, h3, h4⟩
  · exact absurd hs (hall s (Nat.zero_le _) (by omega))
  · have hrs : r = s := by
      rcases Nat.lt_trichotomy r s with hlt | heq | hgt
      · exact absurd h3 (hfirst r hlt)
      · exact heq
      · exact absurd hs (h4 s (Nat.zero_le _) hgt)
    rw [h, hrs]

theorem freq_get_state_absent (dfc : devfreq_cooling_device) (freq : Nat)
    (hlen : dfc.freq_table.length = dfc.freq_table_size)
    (habs : freq ∉ dfc.freq_table) :
    freq_get_state dfc freq = some THERMAL_CSTATE_INVALID := by
  unfold freq_get_state
  rcases freq_get_state_loop_spec dfc freq dfc.freq_table_size 0 (by omega) with
    ⟨h, _⟩ | ⟨r, _, _, _, h3, _⟩
  · exact h
  · exact absurd (List.getElem?_mem h3) habs

theorem freq_get_state_present (dfc : devfreq_cooling_device) (freq : Nat)
    (hlen : dfc.freq_table.length = dfc.freq_table_size)
    (hmem : freq ∈ dfc.freq_table) :
    ∃ r, freq_get_state dfc freq = some r ∧ r < dfc.freq_table_size := by
  unfold freq_get_state
  rcases freq_get_state_loop_spec dfc freq dfc.freq_table_size 0 (by omega) with
    ⟨_, hall⟩ | ⟨r, h, _, h2, _, _⟩
  · obtain ⟨j, hj, hjf⟩ := List.getElem_of_mem hmem
    have : dfc.freq_table[j]? = some freq := by
      rw [List.getElem?_eq_getElem hj, hjf]
    exact absurd this (hall j (Nat.zero_le _) (by omega))
  · exact ⟨r, h, by omega⟩

theorem sorted_first_index (l : List Nat) (hsorted : l.Sorted (· > ·)) (s f : Nat)
    (hs : l[s]? = some f) : ∀ j, j < s → l[j]? ≠ some f := by
  intro j hj hjf
  have hslt : s < l.length := by
    by_contra hge
    rw [List.getElem?_eq_none (by omega)] at hs
    cases hs
  have hjlt : j < l.length := by omega
  have hrel := List.pairwise_iff_getElem.mp hsorted j s hjlt hslt hj
  rw [List.getElem?_eq_getElem hslt] at hs
  rw [List.getElem?_eq_getElem hjlt] at hjf
  have h1 := Option.some.inj hs
  have h2 := Option.some.inj hjf
  omega

theorem get_requested_power_eval (cfg : Bool) (dfc : devfreq_cooling_device)
    (pt : List Nat) (s p sp : Nat)
    (hstate : freq_get_state dfc dfc.devfreq.last_status.current_frequency = some s)
    (hvalid : s ≠ THERMAL_CSTATE_INVALID)
    (hpt : dfc.power_table = some pt) (hp : pt[s]? = some p)
    (hsp : get_static_power dfc dfc.devfreq.last_status.current_frequency = some sp)
    (htot : dfc.devfreq.last_status.total_time ≠ 0) :
    devfreq_cooling_get_requested_power cfg dfc
      = Result.ok (to_u32 (to_u32 (to_ulong (p * dfc.devfreq.last_status.busy_time)
          / dfc.devfreq.last_status.total_time) + to_u32 sp)) := by
  unfold devfreq_cooling_get_requested_power
  dsimp only
  rw [hstate]
  dsimp only
  rw [if_neg hvalid, hpt]
  dsimp only [Option.some_bind]
  rw [hp]
  dsimp only
  rw [if_pos htot]
  dsimp only
  rw [hsp]

theorem get_requested_power_eval_idle (cfg : Bool) (dfc : devfreq_cooling_device)
    (pt : List Nat) (s p : Nat)
    (hstate : freq_get_state dfc dfc.devfreq.last_status.current_frequency = some s)
    (hvalid : s ≠ THERMAL_CSTATE_INVALID)
    (hpt : dfc.power_table = some pt) (hp : pt[s]? = some p)
    (htot : dfc.devfreq.last_status.total_time = 0) :
    devfreq_cooling_get_requested_power cfg dfc
      = if cfg = true then
          match get_static_power dfc dfc.devfreq.last_status.current_frequency with
          | none => Result.undefined
          | some sp => Result.ok (to_u32 (p + to_u32 sp))
        else Result.undefined := by
  unfold devfreq_cooling_get_requested_power
  dsimp only
  rw [hstate]
  dsimp only
  rw [if_neg hvalid, hpt]
  dsimp only [Option.some_bind]
  rw [hp]
  dsimp only
  rw [if_neg (by rw [htot]; exact fun h => h rfl)]
  cases cfg <;> simp

theorem get_requested_power_eagain_iff (cfg : Bool) (dfc : devfreq_cooling_device)
    (hlen : dfc.freq_table.length = dfc.freq_table_size)
    (hsz : dfc.freq_table_size < 2 ^ 64) :
    devfreq_cooling_get_requested_power cfg dfc = Result.fail (-EAGAIN)
      ↔ dfc.devfreq.last_status.current_frequency ∉ dfc.freq_table := by
  by_cases hmem : dfc.devfreq.last_status.current_frequency ∈ dfc.freq_table
  · obtain ⟨r, hr, hrlt⟩ := freq_get_state_present dfc _ hlen hmem
    have hvalid : r ≠ THERMAL_CSTATE_INVALID := by
      unfold THERMAL_CSTATE_INVALID ULONG_MAX
      omega
    constructor
    · intro h
      exfalso
      unfold devfreq_cooling_get_requested_power at h
      dsimp only at h
      rw [hr] at h
      dsimp only at h
      rw [if_neg hvalid] at h
      split at h
      · cases h
      · split at h
        · cases h
        · split at h <;> cases h
    · intro h
      exact absurd hmem h
  · constructor
    · intro _
      exact hmem
    · intro _
      unfold devfreq_cooling_get_requested_power
      dsimp only
      rw [freq_get_state_absent dfc _ hlen hmem]
      dsimp only
      rw [if_pos rfl]

/-! ## Lemmas on `set_cur_state` -/

theorem partition_enable_opps_loop_total (ext : External) (ft : List Nat) (st : Nat) :
    ∀ n i opps, i + n ≤ ft.length →
      ∃ r, partition_enable_opps_loop ext ft st n i opps = some r := by
  intro n
  induction n with
  | zero =>
    intro i opps _
    exact ⟨_, rfl⟩
  | succ n ih =>
    intro i opps hi
    have hget : ft[i]? = some ft[i] := List.getElem?_eq_getElem (by omega)
    unfold partition_enable_opps_loop
    rw [hget]
    dsimp only
    cases dev_pm_opp_find_freq_exact opps ft[i] (!decide (i ≥ st)) with
    | error e =>
      dsimp only
      by_cases he : e = -ERANGE
      · rw [if_pos he]
        exact ih (i + 1) opps (by omega)
      · rw [if_neg he]
        exact ⟨_, rfl⟩
    | ok o =>
      dsimp only
      generalize (if decide (i ≥ st) = true then dev_pm_opp_enable ext opps ft[i]
        else dev_pm_opp_disable ext opps ft[i]) = r
      by_cases hr : r.1 ≠ 0
      · rw [if_pos hr]
        exact ⟨_, rfl⟩
      · rw [if_neg hr]
        exact ih (i + 1) r.2 (by omega)

theorem set_cur_state_ipa_limits_total (dfc : devfreq_cooling_device) (ipa : hisi_ipa)
    (hlen : dfc.freq_table.length = dfc.freq_table_size) :
    ∃ ipa1, set_cur_state_ipa_limits dfc ipa = some ipa1 ∧
      ipa1.g_ipa_soc_state = ipa.g_ipa_soc_state ∧
      ipa1.g_ipa_board_state = ipa.g_ipa_board_state := by
  unfold set_cur_state_ipa_limits
  by_cases h1 : ipa.g_ipa_soc_state < dfc.freq_table_size
  · have hget1 : dfc.freq_table[ipa.g_ipa_soc_state]?
        = some dfc.freq_table[ipa.g_ipa_soc_state] :=
      List.getElem?_eq_getElem (by omega)
    rw [if_pos h1, hget1]
    dsimp only
    by_cases h2 : ipa.g_ipa_board_state < dfc.freq_table_size
    · have hget2 : dfc.freq_table[ipa.g_ipa_board_state]?
          = some dfc.freq_table[ipa.g_ipa_board_state] :=
        List.getElem?_eq_getElem (by omega)
      rw [if_pos h2, hget2]
      exact ⟨_, rfl, rfl, rfl⟩
    · rw [if_neg h2]
      exact ⟨_, rfl, rfl, rfl⟩
  · rw [if_neg h1]
    dsimp only
    by_cases h2 : ipa.g_ipa_board_state < dfc.freq_table_size
    · have hget2 : dfc.freq_table[ipa.g_ipa_board_state]?
          = some dfc.freq_table[ipa.g_ipa_board_state] :=
        List.getElem?_eq_getElem (by omega)
      rw [if_pos h2, hget2]
      exact ⟨_, rfl, rfl, rfl⟩
    · rw [if_neg h2]
      exact ⟨_, rfl, rfl, rfl⟩

theorem set_cur_state_plain (ext : External) (sys : cooling_system) (v : Nat)
    (hlen : sys.dfc.freq_table.length = sys.dfc.freq_table_size) :
    (v = sys.dfc.cooling_state →
      devfreq_cooling_set_cur_state false ext sys v = some (0, sys)) ∧
    (v ≠ sys.dfc.cooling_state → v ≥ sys.dfc.freq_table_size →
      devfreq_cooling_set_cur_state false ext sys v = some (-EINVAL, sys)) ∧
    (v ≠ sys.dfc.cooling_state → v < sys.dfc.freq_table_size →
      ∃ ret opps, partition_enable_opps ext sys.dfc v = some (ret, opps) ∧
        ∃ sys1, devfreq_cooling_set_cur_state false ext sys v = some (ret, sys1) ∧
          sys1.applier_calls = sys.applier_calls + 1 ∧
          sys1.dfc.cooling_state = (if ret = 0 then v else sys.dfc.cooling_state) ∧
          sys1.dfc.freq_table = sys.dfc.freq_table ∧
          sys1.dfc.freq_table_size = sys.dfc.freq_table_size) := by
  refine ⟨fun h => ?_, fun h1 h2 => ?_, fun h1 h2 => ?_⟩
  · unfold devfreq_cooling_set_cur_state
    simp only [Bool.false_eq_true, if_false, if_pos h]
  · unfold devfreq_cooling_set_cur_state
    simp only [Bool.false_eq_true, if_false, if_neg h1, if_pos h2]
  · obtain ⟨⟨ret, opps⟩, hr⟩ := partition_enable_opps_loop_total ext sys.dfc.freq_table v
      sys.dfc.freq_table_size 0 sys.dfc.devfreq.opps (by omega)
    have hp : partition_enable_opps ext sys.dfc v = some (ret, opps) := hr
    refine ⟨ret, opps, hp, ?_⟩
    unfold devfreq_cooling_set_cur_state
    simp only [Bool.false_eq_true, if_false, if_neg h1, if_neg (not_le.mpr h2), hp]
    by_cases h0 : ret = 0
    · simp only [h0, ne_eq, not_true_eq_false, if_false, if_true]
      exact ⟨_, rfl, rfl, rfl, rfl, rfl⟩
    · simp only [h0, ne_eq, not_false_eq_true, if_true, if_false]
      exact ⟨_, rfl, rfl, rfl, rfl, rfl⟩

theorem set_cur_state_hisi (ext : External) (sys : cooling_system) (v : Nat)
    (hlen : sys.dfc.freq_table.length = sys.dfc.freq_table_size) :
    ∃ ipa1, ipa1.g_ipa_soc_state = sys.ipa.g_ipa_soc_state ∧
      ipa1.g_ipa_board_state = sys.ipa.g_ipa_board_state ∧
      (set_cur_state_limited sys.dfc sys.ipa v = sys.dfc.cooling_state →
        devfreq_cooling_set_cur_state true ext sys v = some (0, { sys with ipa := ipa1 })) ∧
      (set_cur_state_limited sys.dfc sys.ipa v ≠ sys.dfc.cooling_state →
        set_cur_state_limited sys.dfc sys.ipa v ≠ THERMAL_NO_LIMIT →
        set_cur_state_limited sys.dfc sys.ipa v ≥ sys.dfc.freq_table_size →
        devfreq_cooling_set_cur_state true ext sys v
          = some (-EINVAL, { sys with ipa := ipa1 })) ∧
      (set_cur_state_limited sys.dfc sys.ipa v ≠ sys.dfc.cooling_state →
        (set_cur_state_limited sys.dfc sys.ipa v = THERMAL_NO_LIMIT ∨
          set_cur_state_limited sys.dfc sys.ipa v < sys.dfc.freq_table_size) →
        ∃ sys1, devfreq_cooling_set_cur_state true ext sys v = some (0, sys1) ∧
          sys1.dfc = { sys.dfc with
            cooling_state := set_cur_state_limited sys.dfc sys.ipa v } ∧
          sys.applier_calls ≤ sys1.applier_calls ∧
          sys1.applier_calls ≤ sys.applier_calls + 1 ∧
          sys1.ipa.g_ipa_soc_state = sys.ipa.g_ipa_soc_state ∧
          sys1.ipa.g_ipa_board_state = sys.ipa.g_ipa_board_state) := by
  obtain ⟨ipa1, hipa, hsoc, hboard⟩ := set_cur_state_ipa_limits_total sys.dfc sys.ipa hlen
  have hst : set_cur_state_limited sys.dfc ipa1 v = set_cur_state_limited sys.dfc sys.ipa v := by
    unfold set_cur_state_limited
    rw [hsoc, hboard]
  refine ⟨ipa1, hsoc, hboard, fun h => ?_, fun h1 h2 h3 => ?_, fun h1 h2 => ?_⟩
  · unfold devfreq_cooling_set_cur_state
    simp only [if_true, hipa, hst, if_pos h]
  · unfold devfreq_cooling_set_cur_state
    simp only [if_true, hipa, hst, if_neg h1, if_neg h2, if_pos h3]
  · unfold devfreq_cooling_set_cur_state
    simp only [if_true, hipa, hst, if_neg h1]
    by_cases hnl : set_cur_state_limited sys.dfc sys.ipa v = THERMAL_NO_LIMIT
    · simp only [if_pos hnl]
      refine ⟨_, rfl, ?_, ?_, ?_, hsoc, hboard⟩
      · rw [hnl]
      · dsimp only
        split <;> omega
      · dsimp only
        split <;> omega
    · have hlt : set_cur_state_limited sys.dfc sys.ipa v < sys.dfc.freq_table_size := by
        rcases h2 with h2 | h2
        · exact absurd h2 hnl
        · exact h2
      have hget : sys.dfc.freq_table[set_cur_state_limited sys.dfc sys.ipa v]?
          = some sys.dfc.freq_table[set_cur_state_limited sys.dfc sys.ipa v] :=
        List.getElem?_eq_getElem (by omega)
      simp only [if_neg hnl, if_neg (not_le.mpr hlt), hget]
      refine ⟨_, rfl, rfl, ?_, ?_, hsoc, hboard⟩
      · dsimp only
        split <;> omega
      · dsimp only
        split <;> omega

/-! ## Lemmas on the table builder -/

theorem available_rates_cons (o : dev_pm_opp) (rest : List dev_pm_opp) :
    available_rates (o :: rest)
      = if o.available = true then o.rate :: available_rates rest
        else available_rates rest := by
  unfold available_rates
  by_cases h : o.available = true
  · simp [List.filter_cons, h]
  · simp [List.filter_cons, h]

theorem find_freq_floor_none (opps : List dev_pm_opp) (c : Nat) :
    find_freq_floor opps c = none → ∀ r ∈ available_rates opps, c < r := by
  induction opps with
  | nil =>
    intro _ r hr
    simp [available_rates] at hr
  | cons o rest ih =>
    intro h r hr
    unfold find_freq_floor at h
    cases hrest : find_freq_floor rest c with
    | some b =>
      rw [hrest] at h
      dsimp only at h
      split at h <;> cases h
    | none =>
      rw [hrest] at h
      dsimp only at h
      split at h
      · cases h
      · rename_i hno
        rw [available_rates_cons] at hr
        by_cases ha : o.available = true
        · rw [if_pos ha] at hr
          rcases List.mem_cons.mp hr with hr | hr
          · subst hr
            by_contra hle
            exact hno ⟨ha, by omega⟩
          · exact ih hrest r hr
        · rw [if_neg ha] at hr
          exact ih hrest r hr

theorem find_freq_floor_some (opps : List dev_pm_opp) (c : Nat) :
    ∀ o, find_freq_floor opps c = some o →
      o.rate ∈ available_rates opps ∧ o.rate ≤ c ∧
      ∀ r ∈ available_rates opps, r ≤ c → r ≤ o.rate := by
  induction opps with
  | nil =>
    intro o h
    simp [find_freq_floor] at h
  | cons x rest ih =>
    intro o h
    unfold find_freq_floor at h
    rw [available_rates_cons]
    cases hrest : find_freq_floor rest c with
    | some b =>
      obtain ⟨hb1, hb2, hb3⟩ := ih b hrest
      rw [hrest] at h
      dsimp only at h
      split at h
      · rename_i hx
        cases h
        rw [if_pos hx.1]
        refine ⟨List.mem_cons_self _ _, hx.2.1, fun r hr hrc => ?_⟩
        rcases List.mem_cons.mp hr with hr | hr
        · omega
        · have := hb3 r hr hrc
          omega
      · rename_i hx
        cases h
        by_cases ha : x.available = true
        · rw [if_pos ha]
          refine ⟨List.mem_cons_of_mem _ hb1, hb2, fun r hr hrc => ?_⟩
          rcases List.mem_cons.mp hr with hr | hr
          · subst hr
            by_contra hlt
            exact hx ⟨ha, hrc, by omega⟩
          · exact hb3 r hr hrc
        · rw [if_neg ha]
          exact ⟨hb1, hb2, hb3⟩
    | none =>
      have hnone := find_freq_floor_none rest c hrest
      rw [hrest] at h
      dsimp only at h
      split at h
      · rename_i hx
        cases h
        rw [if_pos hx.1]
        refine ⟨List.mem_cons_self _ _, hx.2, fun r hr hrc => ?_⟩
        rcases List.mem_cons.mp hr with hr | hr
        · omega
        · have := hnone r hr
          omega
      · cases h

theorem countP_le_split (R : List Nat) (m : Nat) :
    R.countP (fun r => decide (r ≤ m))
      = R.countP (fun r => decide (r + 1 ≤ m)) + R.count m := by
  induction R with
  | nil => rfl
  | cons a t ih =>
    rw [List.countP_cons, List.countP_cons, List.count_cons, ih]
    by_cases h1 : a ≤ m
    · by_cases h2 : a + 1 ≤ m
      · have h3 : ¬ a = m := by omega
        simp [h1, h2, h3]
        omega
      · have h3 : a = m := by omega
        simp [h1, h2, h3]
        omega
    · have h2 : ¬ a + 1 ≤ m := by omega
      have h3 : ¬ a = m := by omega
      simp [h1, h2, h3]

theorem countP_below_floor (R : List Nat) (c m : Nat) (hnodup : R.Nodup) (hmem : m ∈ R)
    (hmc : m ≤ c) (hmax : ∀ r ∈ R, r ≤ c → r ≤ m) :
    R.countP (fun r => decide (r ≤ c)) = R.countP (fun r => decide (r + 1 ≤ m)) + 1 := by
  have h1 : R.countP (fun r => decide (r ≤ c)) = R.countP (fun r => decide (r ≤ m)) := by
    apply List.countP_congr
    intro r hr
    simp only [decide_eq_true_eq]
    exact ⟨fun h => hmax r hr h, fun h => le_trans h hmc⟩
  rw [h1, countP_le_split, List.count_eq_one_of_mem hnodup hmem]

theorem get_dynamic_power_total (dfc : devfreq_cooling_device) (freq voltage : Nat)
    (h : dfc.power_ops.isSome = true) :
    ∃ p, get_dynamic_power dfc freq voltage = some p := by
  unfold get_dynamic_power
  cases hops : dfc.power_ops with
  | none =>
    rw [hops] at h
    cases h
  | some ops =>
    dsimp only
    cases ops.get_dynamic_power with
    | none => exact ⟨_, rfl⟩
    | some f => exact ⟨_, rfl⟩

theorem gen_tables_loop_step (dfc : devfreq_cooling_device) (n c : Nat)
    (ft pt : List Nat) (o : dev_pm_opp)
    (hfloor : find_freq_floor dfc.devfreq.opps c = some o) :
    ∃ pt1, gen_tables_loop dfc (n + 1) c ft pt
        = gen_tables_loop dfc n (to_ulong (o.rate + 2 ^ 64 - 1)) (ft ++ [to_u32 o.rate]) pt1
      ∧ pt1.length = pt.length + (if dfc.power_ops.isSome = true then 1 else 0) := by
  rw [gen_tables_loop]
  unfold dev_pm_opp_find_freq_floor
  rw [hfloor]
  dsimp only
  by_cases hops : dfc.power_ops.isSome = true
  · obtain ⟨p, hp⟩ := get_dynamic_power_total dfc o.rate
      (dev_pm_opp_get_voltage (Except.ok o) / 1000) hops
    rw [if_pos hops, hp]
    exact ⟨_, rfl, by rw [if_pos hops, List.length_append]; rfl⟩
  · rw [if_neg hops]
    exact ⟨_, rfl, by rw [if_neg hops]; rfl⟩

theorem gen_tables_loop_spec (dfc : devfreq_cooling_device)
    (hnodup : (available_rates dfc.devfreq.opps).Nodup)
    (h32 : ∀ r ∈ available_rates dfc.devfreq.opps, r < 2 ^ 32) :
    ∀ n c ft pt,
      n ≤ (available_rates dfc.devfreq.opps).countP (fun r => decide (r ≤ c)) →
      (∀ f ∈ ft, c < f) → ft.Sorted (· > ·) →
      ∃ ft1 pt1, gen_tables_loop dfc n c ft pt = Result.ok (ft1, pt1) ∧
        ft1.length = ft.length + n ∧ ft1.Sorted (· > ·) ∧
        pt1.length = pt.length + (if dfc.power_ops.isSome = true then n else 0) := by
  intro n
  induction n with
  | zero =>
    intro c ft pt _ _ hs
    exact ⟨ft, pt, rfl, rfl, hs, by split <;> rfl⟩
  | succ n ih =>
    intro c ft pt hcount hall hs
    obtain ⟨r0, hr0, hr0c⟩ := List.countP_pos_iff.mp (Nat.lt_of_lt_of_le (Nat.succ_pos n) hcount)
    have hr0c : r0 ≤ c := of_decide_eq_true hr0c
    cases hfloor : find_freq_floor dfc.devfreq.opps c with
    | none =>
      have := find_freq_floor_none _ _ hfloor r0 hr0
      omega
    | some o =>
      obtain ⟨hmem, hoc, hmax⟩ := find_freq_floor_some _ _ o hfloor
      have ho32 := h32 _ hmem
      have hcnt := countP_below_floor _ c o.rate hnodup hmem hoc hmax
      have hu32 : to_u32 o.rate = o.rate := Nat.mod_eq_of_lt ho32
      have hsorted : (ft ++ [o.rate]).Sorted (· > ·) := by
        unfold List.Sorted
        rw [List.pairwise_append]
        refine ⟨hs, List.pairwise_singleton _ _, fun a ha b hb => ?_⟩
        rw [List.mem_singleton] at hb
        have := hall a ha
        show a > b
        omega
      obtain ⟨pt1, hstep, hpt1⟩ := gen_tables_loop_step dfc n c ft pt o hfloor
      rw [hstep, hu32]
      by_cases hn : n = 0
      · subst hn
        refine ⟨ft ++ [o.rate], pt1, rfl, by rw [List.length_append]; rfl, hsorted, ?_⟩
        rw [hpt1]
      · have hm : 1 ≤ o.rate := by
          by_contra hlt
          have hz : (available_rates dfc.devfreq.opps).countP
              (fun r => decide (r + 1 ≤ o.rate)) = 0 := by
            rw [List.countP_eq_zero]
            intro a _
            simp only [decide_eq_true_eq]
            omega
          omega
        have hc1 : to_ulong (o.rate + 2 ^ 64 - 1) = o.rate - 1 := by
          unfold to_ulong
          omega
        have hcount1 : n ≤ (available_rates dfc.devfreq.opps).countP
            (fun r => decide (r ≤ o.rate - 1)) := by
          have : (available_rates dfc.devfreq.opps).countP (fun r => decide (r ≤ o.rate - 1))
              = (available_rates dfc.devfreq.opps).countP
                  (fun r => decide (r + 1 ≤ o.rate)) := by
            apply List.countP_congr
            intro r _
            simp only [decide_eq_true_eq]
            omega
          omega
        have hall1 : ∀ f ∈ ft ++ [o.rate], o.rate - 1 < f := by
          intro f hf
          rcases List.mem_append.mp hf with hf | hf
          · have := hall f hf
            omega
          · rw [List.mem_singleton] at hf
            omega
        rw [hc1]
        obtain ⟨ft2, pt2, h1, h2, h3, h4⟩ := ih (o.rate - 1) (ft ++ [o.rate]) pt1 hcount1 hall1 hsorted
        refine ⟨ft2, pt2, h1, ?_, h3, ?_⟩
        · rw [h2, List.length_append]
          simp only [List.length_singleton]
          omega
        · rw [h4, hpt1]
          split <;> omega

theorem available_rates_length (opps : List dev_pm_opp) :
    (available_rates opps).length = dev_pm_opp_get_opp_count opps := by
  unfold available_rates dev_pm_opp_get_opp_count
  rw [List.length_map]

theorem gen_tables_run (ext : External) (dfc : devfreq_cooling_device)
    (halloc1 : ext.kcalloc_power_table = true) (halloc2 : ext.kcalloc_freq_table = true)
    (hnodup : (available_rates dfc.devfreq.opps).Nodup)
    (h32 : ∀ r ∈ available_rates dfc.devfreq.opps, r < 2 ^ 32) :
    ∃ ft pt, gen_tables_loop dfc (dev_pm_opp_get_opp_count dfc.devfreq.opps) ULONG_MAX [] []
        = Result.ok (ft, pt) ∧
      devfreq_cooling_gen_tables ext dfc = some (0, { dfc with
        power_table := if dfc.power_ops.isSome then some pt else dfc.power_table,
        freq_table := ft,
        freq_table_size := dev_pm_opp_get_opp_count dfc.devfreq.opps }) ∧
      ft.length = dev_pm_opp_get_opp_count dfc.devfreq.opps ∧ ft.Sorted (· > ·) ∧
      pt.length = (if dfc.power_ops.isSome = true
        then dev_pm_opp_get_opp_count dfc.devfreq.opps else 0) := by
  have hcount : dev_pm_opp_get_opp_count dfc.devfreq.opps
      ≤ (available_rates dfc.devfreq.opps).countP (fun r => decide (r ≤ ULONG_MAX)) := by
    have : (available_rates dfc.devfreq.opps).countP (fun r => decide (r ≤ ULONG_MAX))
        = (available_rates dfc.devfreq.opps).length := by
      rw [List.countP_eq_length]
      intro r hr
      have := h32 r hr
      simp only [decide_eq_true_eq]
      unfold ULONG_MAX
      omega
    rw [this, available_rates_length]
  obtain ⟨ft, pt, hloop, hlen, hsorted, hpt⟩ := gen_tables_loop_spec dfc hnodup h32
    (dev_pm_opp_get_opp_count dfc.devfreq.opps) ULONG_MAX [] [] hcount
    (fun f hf => by cases hf) List.sorted_nil
  refine ⟨ft, pt, hloop, ?_, by rw [hlen]; exact Nat.zero_add _, hsorted,
    by rw [hpt]; exact Nat.zero_add _⟩
  unfold devfreq_cooling_gen_tables
  dsimp only
  rw [if_neg (by rw [halloc1]; exact fun h => Bool.noConfusion h.2),
    if_neg (by rw [halloc2]; exact fun h => Bool.noConfusion h), hloop]

/-! ## Lemmas on the slots of the built tables -/

theorem find_freq_floor_mem (opps : List dev_pm_opp) (c : Nat) :
    ∀ o, find_freq_floor opps c = some o → o ∈ opps ∧ o.available = true := by
  induction opps with
  | nil =>
    intro o h
    simp [find_freq_floor] at h
  | cons x rest ih =>
    intro o h
    unfold find_freq_floor at h
    cases hrest : find_freq_floor rest c with
    | some b =>
      obtain ⟨hb1, hb2⟩ := ih b hrest
      rw [hrest] at h
      dsimp only at h
      split at h
      · rename_i hx
        cases h
        exact ⟨List.mem_cons_self _ _, hx.1⟩
      · cases h
        exact ⟨List.mem_cons_of_mem _ hb1, hb2⟩
    | none =>
      rw [hrest] at h
      dsimp only at h
      split at h
      · rename_i hx
        cases h
        exact ⟨List.mem_cons_self _ _, hx.1⟩
      · cases h

theorem mem_available_rates (opps : List dev_pm_opp) (o : dev_pm_opp)
    (hmem : o ∈ opps) (hav : o.available = true) : o.rate ∈ available_rates opps := by
  unfold available_rates
  exact List.mem_map.mpr ⟨o, List.mem_filter.mpr ⟨hmem, hav⟩, rfl⟩

theorem gen_tables_loop_step_slots (dfc : devfreq_cooling_device) (n c : Nat)
    (ft pt : List Nat) (o : dev_pm_opp)
    (hfloor : find_freq_floor dfc.devfreq.opps c = some o) :
    gen_tables_loop dfc (n + 1) c ft pt
      = gen_tables_loop dfc n (to_ulong (o.rate + 2 ^ 64 - 1)) (ft ++ [to_u32 o.rate])
          (pt ++ (if dfc.power_ops.isSome = true
            then [to_u32 ((get_dynamic_power dfc o.rate (o.u_volt / 1000)).getD 0)]
            else [])) := by
  rw [gen_tables_loop]
  unfold dev_pm_opp_find_freq_floor
  rw [hfloor]
  dsimp only
  by_cases hops : dfc.power_ops.isSome = true
  · obtain ⟨p, hp⟩ := get_dynamic_power_total dfc o.rate
      (dev_pm_opp_get_voltage (Except.ok o) / 1000) hops
    have hp1 : get_dynamic_power dfc o.rate (o.u_volt / 1000) = some p := hp
    rw [if_pos hops, hp, if_pos hops, hp1]
    rfl
  · rw [if_neg hops, if_neg hops, List.append_nil]

theorem gen_tables_loop_fail (dfc : devfreq_cooling_device) :
    ∀ n c ft pt e, gen_tables_loop dfc n c ft pt = Result.fail e → e = -ERANGE := by
  intro n
  induction n with
  | zero =>
    intro c ft pt e h
    simp [gen_tables_loop] at h
  | succ n ih =>
    intro c ft pt e h
    cases hfloor : find_freq_floor dfc.devfreq.opps c with
    | none =>
      rw [gen_tables_loop] at h
      unfold dev_pm_opp_find_freq_floor at h
      rw [hfloor] at h
      dsimp only at h
      cases h
      rfl
    | some o =>
      rw [gen_tables_loop_step_slots dfc n c ft pt o hfloor] at h
      exact ih _ _ _ e h

theorem gen_tables_loop_slots (dfc : devfreq_cooling_device) :
    ∀ n c ft pt ft1 pt1, gen_tables_loop dfc n c ft pt = Result.ok (ft1, pt1) →
      ∃ os : List dev_pm_opp, os.length = n ∧
        (∀ o ∈ os, o ∈ dfc.devfreq.opps ∧ o.available = true) ∧
        ft1 = ft ++ os.map (fun o => to_u32 o.rate) ∧
        pt1 = pt ++ (if dfc.power_ops.isSome = true
          then os.map (fun o =>
            to_u32 ((get_dynamic_power dfc o.rate (o.u_volt / 1000)).getD 0))
          else []) := by
  intro n
  induction n with
  | zero =>
    intro c ft pt ft1 pt1 h
    rw [gen_tables_loop] at h
    cases h
    refine ⟨[], rfl, fun o ho => (by cases ho), by simp, by simp⟩
  | succ n ih =>
    intro c ft pt ft1 pt1 h
    cases hfloor : find_freq_floor dfc.devfreq.opps c with
    | none =>
      rw [gen_tables_loop] at h
      unfold dev_pm_opp_find_freq_floor at h
      rw [hfloor] at h
      dsimp only at h
      cases h
    | some o =>
      rw [gen_tables_loop_step_slots dfc n c ft pt o hfloor] at h
      obtain ⟨os, hlen, hmem, hft, hpt⟩ := ih _ _ _ ft1 pt1 h
      refine ⟨o :: os, by rw [List.length_cons, hlen], ?_, ?_, ?_⟩
      · intro x hx
        rcases List.mem_cons.mp hx with hx | hx
        · subst hx
          exact find_freq_floor_mem _ _ _ hfloor
        · exact hmem x hx
      · rw [hft, List.append_assoc]
        rfl
      · rw [hpt, List.append_assoc]
        by_cases hops : dfc.power_ops.isSome = true
        · simp only [if_pos hops]
          rfl
        · simp only [if_neg hops, List.append_nil]

theorem gen_tables_success_inv (ext : External) (dfc dfc1 : devfreq_cooling_device)
    (h : devfreq_cooling_gen_tables ext dfc = some (0, dfc1)) :
    ∃ ft pt, gen_tables_loop dfc (dev_pm_opp_get_opp_count dfc.devfreq.opps) ULONG_MAX [] []
        = Result.ok (ft, pt) ∧
      dfc1 = { dfc with
        power_table := if dfc.power_ops.isSome then some pt else dfc.power_table,
        freq_table := ft,
        freq_table_size := dev_pm_opp_get_opp_count dfc.devfreq.opps } := by
  unfold devfreq_cooling_gen_tables at h
  dsimp only at h
  have hne : (-ENOMEM : Int) ≠ 0 := by decide
  split at h
  · exact absurd (congrArg Prod.fst (Option.some.inj h)) hne
  · split at h
    · exact absurd (congrArg Prod.fst (Option.some.inj h)) hne
    · cases hloop : gen_tables_loop dfc (dev_pm_opp_get_opp_count dfc.devfreq.opps)
          ULONG_MAX [] [] with
      | undefined =>
        rw [hloop] at h
        cases h
      | fail e =>
        rw [hloop] at h
        have he := gen_tables_loop_fail dfc _ _ _ _ e hloop
        have h0 : e = 0 := congrArg Prod.fst (Option.some.inj h)
        rw [he] at h0
        exact absurd h0 (by decide)
      | ok r =>
        obtain ⟨ft, pt⟩ := r
        rw [hloop] at h
        exact ⟨ft, pt, rfl, (congrArg Prod.snd (Option.some.inj h)).symm⟩

theorem gen_tables_success_slots (ext : External) (dfc dfc1 : devfreq_cooling_device)
    (h : devfreq_cooling_gen_tables ext dfc = some (0, dfc1)) :
    ∃ os : List dev_pm_opp, os.length = dev_pm_opp_get_opp_count dfc.devfreq.opps ∧
      (∀ o ∈ os, o ∈ dfc.devfreq.opps ∧ o.available = true) ∧
      dfc1 = { dfc with
        power_table :=
          if dfc.power_ops.isSome then
            some (os.map (fun o =>
              to_u32 ((get_dynamic_power dfc o.rate (o.u_volt / 1000)).getD 0)))
          else dfc.power_table,
        freq_table := os.map (fun o => to_u32 o.rate),
        freq_table_size := dev_pm_opp_get_opp_count dfc.devfreq.opps } := by
  obtain ⟨ft, pt, hloop, hdfc⟩ := gen_tables_success_inv ext dfc dfc1 h
  obtain ⟨os, hlen, hmem, hft, hpt⟩ := gen_tables_loop_slots dfc _ _ _ _ ft pt hloop
  refine ⟨os, hlen, hmem, ?_⟩
  rw [hdfc, hft, hpt, List.nil_append, List.nil_append]
  by_cases hops : dfc.power_ops.isSome = true
  · simp only [hops, if_true]
  · simp only [hops, if_false, Bool.false_eq_true]

theorem gen_tables_built (ext : External) (dfc : devfreq_cooling_device)
    (halloc1 : ext.kcalloc_power_table = true) (halloc2 : ext.kcalloc_freq_table = true)
    (hnodup : (available_rates dfc.devfreq.opps).Nodup)
    (h32 : ∀ r ∈ available_rates dfc.devfreq.opps, r < 2 ^ 32) :
    ∃ os : List dev_pm_opp, os.length = dev_pm_opp_get_opp_count dfc.devfreq.opps ∧
      (∀ o ∈ os, o ∈ dfc.devfreq.opps ∧ o.available = true) ∧
      (os.map (fun o => o.rate)).Sorted (· > ·) ∧
      devfreq_cooling_gen_tables ext dfc = some (0, { dfc with
        power_table :=
          if dfc.power_ops.isSome then
            some (os.map (fun o =>
              to_u32 ((get_dynamic_power dfc o.rate (o.u_volt / 1000)).getD 0)))
          else dfc.power_table,
        freq_table := os.map (fun o => o.rate),
        freq_table_size := dev_pm_opp_get_opp_count dfc.devfreq.opps }) := by
  obtain ⟨ft, pt, _, hrun, _, hsorted, _⟩ := gen_tables_run ext dfc halloc1 halloc2 hnodup h32
  obtain ⟨os, hlen, hmem, hdfc⟩ := gen_tables_success_slots ext dfc _ hrun
  have hmap : os.map (fun o => to_u32 o.rate) = os.map (fun o => o.rate) := by
    apply List.map_congr_left
    intro o ho
    exact Nat.mod_eq_of_lt (h32 _ (mem_available_rates _ o (hmem o ho).1 (hmem o ho).2))
  have hft : ft = os.map (fun o => o.rate) := by
    have := congrArg devfreq_cooling_device.freq_table hdfc
    dsimp only at this
    rw [this, hmap]
  refine ⟨os, hlen, hmem, by rw [← hft]; exact hsorted, ?_⟩
  rw [hrun, hdfc, hmap]

/-! ## Lemmas on the power model -/

theorem mul_mod_chain (a b c d m : Nat) :
    (((a % m * b) % m * c) % m * d) % m = (a * b * c * d) % m := by
  rw [Nat.mod_mul_mod, Nat.mod_mul_mod, Nat.mul_assoc (a * b % m) c d, Nat.mod_mul_mod,
    ← Nat.mul_assoc]

theorem get_dynamic_power_analytic (dfc : devfreq_cooling_device)
    (ops : devfreq_cooling_power) (freq voltage : Nat)
    (hops : dfc.power_ops = some ops) (hnone : ops.get_dynamic_power = none) :
    get_dynamic_power dfc freq voltage
      = some ((ops.dyn_power_coeff * ((freq / 1000000) % 2 ^ 32) * voltage * voltage)
          % 2 ^ 64 / 1000000000) := by
  unfold get_dynamic_power
  rw [hops]
  dsimp only
  rw [hnone]
  dsimp only
  unfold to_ulong to_u32
  rw [mul_mod_chain]

theorem get_dynamic_power_supplied (dfc : devfreq_cooling_device)
    (ops : devfreq_cooling_power) (f : Nat → Nat → Nat) (freq voltage : Nat)
    (hops : dfc.power_ops = some ops) (hf : ops.get_dynamic_power = some f) :
    get_dynamic_power dfc freq voltage = some (f freq voltage % 2 ^ 64) := by
  unfold get_dynamic_power
  rw [hops]
  dsimp only
  rw [hf]
  rfl

theorem find_freq_exact_error (opps : List dev_pm_opp) (freq : Nat) (av : Bool) (e : Int)
    (h : dev_pm_opp_find_freq_exact opps freq av = Except.error e) : e = -ERANGE := by
  unfold dev_pm_opp_find_freq_exact at h
  split at h
  · cases h
  · cases h
    rfl

theorem get_static_power_eval (dfc : devfreq_cooling_device)
    (ops : devfreq_cooling_power) (f : Nat → Nat) (freq : Nat) (opp : Except Int dev_pm_opp)
    (hops : dfc.power_ops = some ops) (hf : ops.get_static_power = some f)
    (hopp : (match dev_pm_opp_find_freq_exact dfc.devfreq.opps freq true with
      | Except.error e =>
        if e = -ERANGE then dev_pm_opp_find_freq_exact dfc.devfreq.opps freq false
        else dev_pm_opp_find_freq_exact dfc.devfreq.opps freq true
      | Except.ok o => Except.ok o) = opp) :
    get_static_power dfc freq
      = if dev_pm_opp_get_voltage opp / 1000 = 0 then some 0
        else some (f (dev_pm_opp_get_voltage opp / 1000) % 2 ^ 64) := by
  unfold get_static_power
  rw [hops]
  dsimp only
  rw [hf]
  dsimp only
  rw [← hopp]
  cases hfe : dev_pm_opp_find_freq_exact dfc.devfreq.opps freq true with
  | error e => rfl
  | ok o => rfl

theorem state2power_eval (dfc : devfreq_cooling_device) (pt : List Nat)
    (s f p sp : Nat)
    (hs : s < dfc.freq_table_size) (hf : dfc.freq_table[s]? = some f)
    (hpt : dfc.power_table = some pt) (hp : pt[s]? = some p)
    (hsp : get_static_power dfc f = some sp) :
    devfreq_cooling_state2power dfc s = Result.ok (to_u32 (p + to_u32 sp)) := by
  unfold devfreq_cooling_state2power
  rw [if_neg (by omega), hf]
  dsimp only
  rw [hsp, hpt]
  dsimp only [Option.some_bind]
  rw [hp]

/-! ## Lemmas on sequences of `set_cur_state` calls -/

theorem set_cur_state_calls_plain (n : Nat) :
    ∀ (calls : List (External × Nat)) (sys : cooling_system),
      sys.dfc.freq_table.length = sys.dfc.freq_table_size →
      sys.dfc.freq_table_size = n → sys.dfc.cooling_state < n →
      ∃ sys1, set_cur_state_calls false calls sys = some sys1 ∧
        sys1.dfc.freq_table_size = n ∧ sys1.dfc.cooling_state < n := by
  intro calls
  induction calls with
  | nil =>
    intro sys _ hsize hcs
    exact ⟨sys, rfl, hsize, hcs⟩
  | cons call rest ih =>
    intro sys hlen hsize hcs
    obtain ⟨hsame, hinv, hrun⟩ := set_cur_state_plain call.1 sys call.2 hlen
    by_cases h1 : call.2 = sys.dfc.cooling_state
    · rw [set_cur_state_calls, hsame h1]
      exact ih sys hlen hsize hcs
    · by_cases h2 : call.2 ≥ sys.dfc.freq_table_size
      · rw [set_cur_state_calls, hinv h1 h2]
        exact ih sys hlen hsize hcs
      · obtain ⟨ret, opps, _, sys1, hcall, _, hstate, hft, hsz⟩ := hrun h1 (by omega)
        rw [set_cur_state_calls, hcall]
        apply ih sys1 (by rw [hft, hsz, hlen]) (by rw [hsz, hsize])
        rw [hstate]
        split <;> omega

theorem set_cur_state_calls_hisi (n : Nat) :
    ∀ (calls : List (External × Nat)) (sys : cooling_system),
      sys.dfc.freq_table.length = sys.dfc.freq_table_size →
      sys.dfc.freq_table_size = n →
      (sys.dfc.cooling_state < n ∨ sys.dfc.cooling_state = THERMAL_NO_LIMIT) →
      ∃ sys1, set_cur_state_calls true calls sys = some sys1 ∧
        sys1.dfc.freq_table_size = n ∧
        (sys1.dfc.cooling_state < n ∨ sys1.dfc.cooling_state = THERMAL_NO_LIMIT) := by
  intro calls
  induction calls with
  | nil =>
    intro sys _ hsize hcs
    exact ⟨sys, rfl, hsize, hcs⟩
  | cons call rest ih =>
    intro sys hlen hsize hcs
    obtain ⟨ipa1, _, _, hsame, hinv, hrun⟩ := set_cur_state_hisi call.1 sys call.2 hlen
    by_cases h1 : set_cur_state_limited sys.dfc sys.ipa call.2 = sys.dfc.cooling_state
    · rw [set_cur_state_calls, hsame h1]
      exact ih { sys with ipa := ipa1 } hlen hsize hcs
    · by_cases h2 : set_cur_state_limited sys.dfc sys.ipa call.2 = THERMAL_NO_LIMIT ∨
          set_cur_state_limited sys.dfc sys.ipa call.2 < sys.dfc.freq_table_size
      · obtain ⟨sys1, hcall, hdfc, _⟩ := hrun h1 h2
        rw [set_cur_state_calls, hcall]
        apply ih sys1 (by rw [hdfc]; exact hlen) (by rw [hdfc]; exact hsize)
        rw [hdfc]
        rcases h2 with h2 | h2
        · exact Or.inr h2
        · exact Or.inl (by rw [← hsize]; exact h2)
      · rw [set_cur_state_calls, hinv h1 (fun h => h2 (Or.inl h))
          (not_lt.mp (fun h => h2 (Or.inr h)))]
        exact ih { sys with ipa := ipa1 } hlen hsize hcs

theorem registered_system_spec (ext : External) (df : devfreq)
    (power_ops : Option devfreq_cooling_power) (ipa : hisi_ipa) (sys : cooling_system)
    (h : registered_system ext df power_ops ipa = some sys) :
    sys.dfc.freq_table.length = sys.dfc.freq_table_size ∧
    sys.dfc.freq_table_size = dev_pm_opp_get_opp_count df.opps ∧
    sys.dfc.cooling_state = 0 := by
  unfold registered_system at h
  split at h
  · rename_i dfc hgen
    obtain ⟨os, hlen, _, hdfc⟩ := gen_tables_success_slots ext _ dfc hgen
    cases h
    subst hdfc
    exact ⟨by simp only [List.length_map]; exact hlen, rfl, rfl⟩
  · cases h

/-! ## Lemmas on failures of the table builder -/

theorem gen_tables_loop_outcome (dfc : devfreq_cooling_device) :
    ∀ n c ft pt,
      ((∃ r, gen_tables_loop dfc n c ft pt = Result.ok r) ∧
        ∀ i, i < n → ∃ c1 o, spec_ceiling dfc.devfreq.opps c i = some c1 ∧
          find_freq_floor dfc.devfreq.opps c1 = some o) ∨
      (gen_tables_loop dfc n c ft pt = Result.fail (-ERANGE) ∧
        ∃ i, i < n ∧ ∃ c1, spec_ceiling dfc.devfreq.opps c i = some c1 ∧
          find_freq_floor dfc.devfreq.opps c1 = none) := by
  intro n
  induction n with
  | zero =>
    intro c ft pt
    exact Or.inl ⟨⟨_, rfl⟩, fun i hi => absurd hi (Nat.not_lt_zero i)⟩
  | succ n ih =>
    intro c ft pt
    cases hfloor : find_freq_floor dfc.devfreq.opps c with
    | none =>
      refine Or.inr ⟨?_, 0, Nat.succ_pos n, c, rfl, hfloor⟩
      rw [gen_tables_loop]
      unfold dev_pm_opp_find_freq_floor
      rw [hfloor]
    | some o =>
      have hnext : ∀ i, spec_ceiling dfc.devfreq.opps c (i + 1)
          = spec_ceiling dfc.devfreq.opps (to_ulong (o.rate + 2 ^ 64 - 1)) i := by
        intro i
        rw [spec_ceiling, hfloor]
      rw [gen_tables_loop_step_slots dfc n c ft pt o hfloor]
      rcases ih (to_ulong (o.rate + 2 ^ 64 - 1)) (ft ++ [to_u32 o.rate])
          (pt ++ (if dfc.power_ops.isSome = true
            then [to_u32 ((get_dynamic_power dfc o.rate (o.u_volt / 1000)).getD 0)]
            else [])) with ⟨hok, hall⟩ | ⟨hfail, i, hi, c1, hc1, hf1⟩
      · refine Or.inl ⟨hok, fun i hi => ?_⟩
        cases i with
        | zero => exact ⟨c, o, rfl, hfloor⟩
        | succ j =>
          obtain ⟨c1, o1, hc1, ho1⟩ := hall j (by omega)
          exact ⟨c1, o1, by rw [hnext, hc1], ho1⟩
      · exact Or.inr ⟨hfail, i + 1, by omega, c1, by rw [hnext, hc1], hf1⟩

/-! ## Lemmas on monotonic tables -/

theorem slots_rate_antitone (os : List dev_pm_opp)
    (hsorted : (os.map (fun o => o.rate)).Sorted (· > ·)) (i j : Nat) (oi oj : dev_pm_opp)
    (hi : os[i]? = some oi) (hj : os[j]? = some oj) (hij : i ≤ j) :
    oj.rate ≤ oi.rate := by
  have hjlt : j < os.length := by
    by_contra hge
    rw [List.getElem?_eq_none (by omega)] at hj
    cases hj
  have hilt : i < os.length := by omega
  rw [List.getElem?_eq_getElem hilt] at hi
  rw [List.getElem?_eq_getElem hjlt] at hj
  have hi1 := Option.some.inj hi
  have hj1 := Option.some.inj hj
  rcases Nat.eq_or_lt_of_le hij with heq | hlt
  · subst heq
    rw [← hi1, ← hj1]
  · have hrel := List.pairwise_iff_getElem.mp hsorted i j
      (by rw [List.length_map]; exact hilt) (by rw [List.length_map]; exact hjlt) hlt
    rw [List.getElem_map, List.getElem_map, hi1, hj1] at hrel
    exact Nat.le_of_lt hrel

theorem analytic_power_mono (coeff r1 r2 v1 v2 : Nat) (hr : r1 ≤ r2) (hv : v1 ≤ v2) :
    coeff * (r1 / 1000000) * (v1 / 1000) ^ 2 / 1000000000
      ≤ coeff * (r2 / 1000000) * (v2 / 1000) ^ 2 / 1000000000 :=
  Nat.div_le_div_right
    (Nat.mul_le_mul (Nat.mul_le_mul_left coeff (Nat.div_le_div_right hr))
      (Nat.pow_le_pow_left (Nat.div_le_div_right hv) 2))

theorem find_freq_exact_found (opps : List dev_pm_opp) (freq : Nat) (av : Bool)
    (o : dev_pm_opp) (hmem : o ∈ opps) (hrate : o.rate = freq) (hav : o.available = av) :
    ∃ o1, dev_pm_opp_find_freq_exact opps freq av = Except.ok o1 ∧ o1 ∈ opps ∧
      o1.rate = freq ∧ o1.available = av := by
  unfold dev_pm_opp_find_freq_exact
  cases hfind : opps.find? (fun o => decide (o.rate = freq) && (o.available == av)) with
  | none =>
    have := List.find?_eq_none.mp hfind o hmem
    simp [hrate, hav] at this
  | some o1 =>
    have hp := List.find?_some hfind
    have hm := List.mem_of_find?_eq_some hfind
    simp only [Bool.and_eq_true, decide_eq_true_eq, beq_iff_eq] at hp
    exact ⟨o1, rfl, hm, hp.1, hp.2⟩

theorem built_state2power (dfc1 : devfreq_cooling_device) (os : List dev_pm_opp)
    (ops : devfreq_cooling_power) (df : Nat → Nat → Nat) (sf : Nat → Nat)
    (hops : dfc1.power_ops = some ops)
    (hdf : ops.get_dynamic_power = some df) (hsf : ops.get_static_power = some sf)
    (hft : dfc1.freq_table = os.map (fun o => o.rate))
    (hsize : dfc1.freq_table_size = os.length)
    (hpt : dfc1.power_table = some (os.map (fun o =>
      to_u32 ((get_dynamic_power dfc1 o.rate (o.u_volt / 1000)).getD 0))))
    (hmem : ∀ o ∈ os, o ∈ dfc1.devfreq.opps ∧ o.available = true)
    (hvolt : ∀ o1 ∈ dfc1.devfreq.opps, ∀ o2 ∈ dfc1.devfreq.opps,
      o1.available = true → o2.available = true → o1.rate ≤ o2.rate →
      o1.u_volt ≤ o2.u_volt)
    (hfit : ∀ o ∈ dfc1.devfreq.opps, o.available = true →
      df o.rate (o.u_volt / 1000) + sf (o.u_volt / 1000) < 2 ^ 32)
    (k : Nat) (o : dev_pm_opp) (hk : os[k]? = some o) :
    devfreq_cooling_state2power dfc1 k
      = Result.ok (df o.rate (o.u_volt / 1000)
          + (if o.u_volt / 1000 = 0 then 0 else sf (o.u_volt / 1000))) := by
  have hklt : k < os.length := by
    by_contra hge
    rw [List.getElem?_eq_none (by omega)] at hk
    cases hk
  obtain ⟨hom, hoa⟩ := hmem o (List.getElem?_mem hk)
  have hfito := hfit o hom hoa
  obtain ⟨o1, hfound, ho1m, ho1r, ho1a⟩ :=
    find_freq_exact_found dfc1.devfreq.opps o.rate true o hom rfl hoa
  have hv1 : o1.u_volt = o.u_volt :=
    Nat.le_antisymm (hvolt o1 ho1m o hom ho1a hoa (Nat.le_of_eq ho1r))
      (hvolt o hom o1 ho1m hoa ho1a (Nat.le_of_eq ho1r.symm))
  have hsp := get_static_power_eval dfc1 ops sf o.rate (Except.ok o1) hops hsf
    (by rw [hfound])
  have hvolt1 : dev_pm_opp_get_voltage (Except.ok o1) = o.u_volt := hv1
  rw [hvolt1] at hsp
  have hdyn : get_dynamic_power dfc1 o.rate (o.u_volt / 1000)
      = some (df o.rate (o.u_volt / 1000) % 2 ^ 64) :=
    get_dynamic_power_supplied dfc1 ops df _ _ hops hdf
  have hf : dfc1.freq_table[k]? = some o.rate := by
    rw [hft, List.getElem?_map, hk]
    rfl
  have hp : (os.map (fun o =>
      to_u32 ((get_dynamic_power dfc1 o.rate (o.u_volt / 1000)).getD 0)))[k]?
      = some (to_u32 (df o.rate (o.u_volt / 1000) % 2 ^ 64)) := by
    rw [List.getElem?_map, hk]
    show some (to_u32 ((get_dynamic_power dfc1 o.rate (o.u_volt / 1000)).getD 0)) = _
    rw [hdyn, Option.getD_some]
  have hD64 : df o.rate (o.u_volt / 1000) % 2 ^ 64 = df o.rate (o.u_volt / 1000) :=
    Nat.mod_eq_of_lt (by omega)
  have hD32 : to_u32 (df o.rate (o.u_volt / 1000)) = df o.rate (o.u_volt / 1000) :=
    Nat.mod_eq_of_lt (by omega)
  by_cases hz : o.u_volt / 1000 = 0
  · rw [if_pos hz] at hsp
    rw [state2power_eval dfc1 _ k o.rate _ 0 (by omega) hf hpt hp hsp, if_pos hz, hD64, hD32]
    unfold to_u32
    exact congrArg Result.ok (by omega)
  · rw [if_neg hz] at hsp
    rw [state2power_eval dfc1 _ k o.rate _ _ (by omega) hf hpt hp hsp, if_neg hz, hD64, hD32]
    have hS64 : sf (o.u_volt / 1000) % 2 ^ 64 = sf (o.u_volt / 1000) :=
      Nat.mod_eq_of_lt (by omega)
    rw [hS64]
    unfold to_u32
    exact congrArg Result.ok (by omega)

/-! ## C1: `power2state` selects the least fitting state -/

/-- C1 (amended): for a power table of length N >= 1, a budget and a static
power whose difference fits an `s32` and a utilisation sample for which
neither the 64-bit product nor the 32-bit quotient overflows,
`devfreq_cooling_power2state` succeeds and returns the least index whose
power table entry is at most `scaledDynamic`, and N-1 when no index fits. -/
theorem power2state_least_fitting_state (dfc : devfreq_cooling_device) (pt : List Nat)
    (power sp : Nat)
    (hpt : dfc.power_table = some pt) (hN : dfc.freq_table_size = pt.length)
    (h1 : 1 ≤ pt.length) (hlen : pt.length < 2 ^ 64)
    (hsp : get_static_power dfc dfc.devfreq.last_status.current_frequency = some sp)
    (hs32 : sp < 2 ^ 32)
    (hhi : power < sp + 2 ^ 31) (hlo : sp ≤ power + 2 ^ 31)
    (hmul : (power - sp) * dfc.devfreq.last_status.total_time < 2 ^ 64)
    (hq : spec_scaledDynamic power sp dfc.devfreq.last_status.total_time
      dfc.devfreq.last_status.busy_time < 2 ^ 32) :
    ∃ i, devfreq_cooling_power2state dfc power = Result.ok i ∧ i < pt.length ∧
      (∀ j p, j < i → pt[j]? = some p →
        spec_scaledDynamic power sp dfc.devfreq.last_status.total_time
          dfc.devfreq.last_status.busy_time < p) ∧
      ((∃ p, pt[i]? = some p ∧
          p ≤ spec_scaledDynamic power sp dfc.devfreq.last_status.total_time
            dfc.devfreq.last_status.busy_time)
        ∨ i = pt.length - 1) := by
  have hu : to_u32 sp = sp := Nat.mod_eq_of_lt hs32
  have key := power2state_dyn_power_exact power sp dfc.devfreq.last_status.total_time
    dfc.devfreq.last_status.busy_time hhi hlo hmul hq
  obtain ⟨r, hr, hlt, h3, h4⟩ := power2state_run dfc pt power sp hpt hN h1 hlen hsp
  rw [hu, key] at h3 h4
  exact ⟨r, hr, hlt, h3, h4⟩

/-- C1 (witness): on the table [100, 60, 20] with no static power and
busy_time = total_time, budget 60 gives state 1, budget 5 gives state 2 and
budget 1000 gives state 0. -/
theorem power2state_least_fitting_state_witness :
    (∃ i, devfreq_cooling_power2state (example_dfc 1 1) 60 = Result.ok i ∧ i < 3 ∧
      (∀ j p, j < i → [100, 60, 20][j]? = some p → spec_scaledDynamic 60 0 1 1 < p) ∧
      ((∃ p, [100, 60, 20][i]? = some p ∧ p ≤ spec_scaledDynamic 60 0 1 1) ∨ i = 3 - 1))
    ∧ devfreq_cooling_power2state (example_dfc 1 1) 60 = Result.ok 1
    ∧ devfreq_cooling_power2state (example_dfc 1 1) 5 = Result.ok 2
    ∧ devfreq_cooling_power2state (example_dfc 1 1) 1000 = Result.ok 0 :=
  ⟨power2state_least_fitting_state (example_dfc 1 1) [100, 60, 20] 60 0 rfl rfl
      (by decide) (by decide) rfl (by decide) (by decide) (by decide) (by decide)
      (by decide),
    by decide, by decide, by decide⟩

/-- C1 (counterexample): on the table [100, 60, 20] with busy_time =
total_time = 1 and no static power, the budget 2^31 makes `scaledDynamic`
2^31, so state 0 fits, but the code returns state 2; the same happens for
budget 1 with total_time = 2^32 (the quotient does not fit 32 bits), for
budget 200 with total_time = busy_time = 2^63 (the product does not fit 64
bits) and for budget 0 with a static power of 2^31 + 101 mW (the difference
does not fit an `s32`). -/
theorem power2state_least_fitting_state_counterexample :
    (devfreq_cooling_power2state (example_dfc 1 1) (2 ^ 31) = Result.ok 2
      ∧ get_static_power (example_dfc 1 1) 1000000000 = some 0
      ∧ 100 ≤ spec_scaledDynamic (2 ^ 31) 0 1 1)
    ∧ (devfreq_cooling_power2state (example_dfc (2 ^ 32) 1) 1 = Result.ok 2
      ∧ 100 ≤ spec_scaledDynamic 1 0 (2 ^ 32) 1)
    ∧ (devfreq_cooling_power2state (example_dfc (2 ^ 63) (2 ^ 63)) 200 = Result.ok 2
      ∧ 100 ≤ spec_scaledDynamic 200 0 (2 ^ 63) (2 ^ 63))
    ∧ (devfreq_cooling_power2state (example_dfc_static (2 ^ 31 + 101) 1 1) 0 = Result.ok 0
      ∧ get_static_power (example_dfc_static (2 ^ 31 + 101) 1 1) 1000000000
          = some (2 ^ 31 + 101)
      ∧ spec_scaledDynamic 0 (2 ^ 31 + 101) 1 1 < 100) := by
  decide

/-! ## C2: the frequency table is strictly descending -/

/-- C2 (amended): for every operating-point source whose N available
operating points have pairwise distinct frequencies below 2^32 Hz, and
provided both `kcalloc` calls succeed, `devfreq_cooling_gen_tables` succeeds
and the frequency table it installs has length N (freq_table_size = N) and is
strictly descending: freq_table[i] > freq_table[i+1] for every i with
i+1 < N. -/
theorem gen_tables_strictly_descending (ext : External) (dfc : devfreq_cooling_device)
    (halloc1 : ext.kcalloc_power_table = true) (halloc2 : ext.kcalloc_freq_table = true)
    (hnodup : (available_rates dfc.devfreq.opps).Nodup)
    (h32 : ∀ r ∈ available_rates dfc.devfreq.opps, r < 2 ^ 32) :
    ∃ dfc1, devfreq_cooling_gen_tables ext dfc = some (0, dfc1) ∧
      dfc1.freq_table.length = dev_pm_opp_get_opp_count dfc.devfreq.opps ∧
      dfc1.freq_table_size = dev_pm_opp_get_opp_count dfc.devfreq.opps ∧
      ∀ (i a b : Nat), dfc1.freq_table[i]? = some a → dfc1.freq_table[i + 1]? = some b →
        b < a := by
  obtain ⟨ft, pt, _, hrun, hlen, hsorted, _⟩ := gen_tables_run ext dfc halloc1 halloc2 hnodup h32
  refine ⟨_, hrun, hlen, rfl, fun i a b ha hb => ?_⟩
  dsimp only at ha hb
  have hb1 : i + 1 < ft.length := by
    by_contra hge
    rw [List.getElem?_eq_none (by omega)] at hb
    cases hb
  have ha1 : i < ft.length := by omega
  have hrel := List.pairwise_iff_getElem.mp hsorted i (i + 1) ha1 hb1 (Nat.lt_succ_self i)
  rw [List.getElem?_eq_getElem ha1] at ha
  rw [List.getElem?_eq_getElem hb1] at hb
  have h1 := Option.some.inj ha
  have h2 := Option.some.inj hb
  omega

/-- C2 (witness): from the source holding 800, 500 and 1000 MHz (in that
order) the builder installs the table [1000, 800, 500] MHz of size 3. -/
theorem gen_tables_strictly_descending_witness :
    observe_tables (devfreq_cooling_gen_tables example_ext_ok
        (fresh_dfc example_devfreq_unordered none))
      = some (0, [1000000000, 800000000, 500000000], 3, none)
    ∧ (∃ dfc1, devfreq_cooling_gen_tables example_ext_ok
          (fresh_dfc example_devfreq_unordered none) = some (0, dfc1) ∧
        dfc1.freq_table.length = dev_pm_opp_get_opp_count example_devfreq_unordered.opps ∧
        dfc1.freq_table_size = dev_pm_opp_get_opp_count example_devfreq_unordered.opps ∧
        ∀ (i a b : Nat), dfc1.freq_table[i]? = some a → dfc1.freq_table[i + 1]? = some b →
          b < a) :=
  ⟨by decide,
    gen_tables_strictly_descending example_ext_ok (fresh_dfc example_devfreq_unordered none)
      rfl rfl (by decide) (by decide)⟩

/-- C2 (counterexample): from a source holding the two distinct frequencies
2^32 Hz and 1000 Hz the builder succeeds and installs the table [0, 1000]
(2^32 truncated to `u32`), which is not descending; and when the `kcalloc` of
the frequency table fails the builder does not succeed: it returns -ENOMEM
and installs nothing. -/
theorem gen_tables_strictly_descending_counterexample :
    (observe_tables (devfreq_cooling_gen_tables example_ext_ok
        (fresh_dfc example_devfreq_wide none))
      = some (0, [0, 1000], 2, none)
      ∧ (available_rates example_devfreq_wide.opps).Nodup
      ∧ dev_pm_opp_get_opp_count example_devfreq_wide.opps = 2)
    ∧ observe_tables (devfreq_cooling_gen_tables example_ext_nomem
        (fresh_dfc example_devfreq_unordered none))
      = some (-ENOMEM, [], 0, none) := by
  decide

/-! ## C3: the budget of a state never selects a state above it -/

/-- C3 (amended): for a power table of length N >= 1, a state s whose entry
is below 2^31, and a utilisation sample with total_time >= 1 and busy_time <=
total_time for which PowerTable[s] * total_time fits 64 bits and the scaled
quotient fits 32 bits, `devfreq_cooling_power2state` called with the budget
PowerTable[s] plus the static power it subtracts returns an index <= s. -/
theorem power2state_of_state_power (dfc : devfreq_cooling_device) (pt : List Nat)
    (s p sp : Nat)
    (hpt : dfc.power_table = some pt) (hN : dfc.freq_table_size = pt.length)
    (hlen : pt.length < 2 ^ 64) (hs : pt[s]? = some p)
    (hsp : get_static_power dfc dfc.devfreq.last_status.current_frequency = some sp)
    (htot : 1 ≤ dfc.devfreq.last_status.total_time)
    (hbusy : dfc.devfreq.last_status.busy_time ≤ dfc.devfreq.last_status.total_time)
    (hp31 : p < 2 ^ 31)
    (hmul : p * dfc.devfreq.last_status.total_time < 2 ^ 64)
    (hq : p * dfc.devfreq.last_status.total_time
      / max dfc.devfreq.last_status.busy_time 1 < 2 ^ 32) :
    ∃ i, devfreq_cooling_power2state dfc (p + to_u32 sp) = Result.ok i ∧ i ≤ s := by
  have hslt : s < pt.length := by
    by_contra hge
    rw [List.getElem?_eq_none (by omega)] at hs
    cases hs
  obtain ⟨r, hr, _, h3, _⟩ :=
    power2state_run dfc pt (p + to_u32 sp) sp hpt hN (by omega) hlen hsp
  refine ⟨r, hr, ?_⟩
  by_contra hgt
  have hlt := h3 s p (by omega) hs
  have hsub : p + to_u32 sp - to_u32 sp = p := by omega
  have key := power2state_dyn_power_exact (p + to_u32 sp) (to_u32 sp)
    dfc.devfreq.last_status.total_time dfc.devfreq.last_status.busy_time
    (by omega) (by omega) (by rw [hsub]; exact hmul)
    (by unfold spec_scaledDynamic; rw [hsub]; exact hq)
  rw [key] at hlt
  unfold spec_scaledDynamic at hlt
  rw [hsub] at hlt
  have hb : max dfc.devfreq.last_status.busy_time 1 ≤ dfc.devfreq.last_status.total_time :=
    max_le hbusy htot
  have hpos : 0 < max dfc.devfreq.last_status.busy_time 1 :=
    lt_of_lt_of_le Nat.zero_lt_one (le_max_right _ _)
  have hge : p ≤ p * dfc.devfreq.last_status.total_time
      / max dfc.devfreq.last_status.busy_time 1 :=
    (Nat.le_div_iff_mul_le hpos).mpr (Nat.mul_le_mul_left p hb)
  omega

/-- C3 (witness): on the table [100, 60, 20] at 50% utilisation, the budget
of state 1 (60 mW, no static power) selects a state <= 1. -/
theorem power2state_of_state_power_witness :
    ∃ i, devfreq_cooling_power2state (example_dfc 2000 1000) (60 + to_u32 0)
      = Result.ok i ∧ i ≤ 1 :=
  power2state_of_state_power (example_dfc 2000 1000) [100, 60, 20] 1 60 0 rfl rfl
    (by decide) rfl rfl (by decide) (by decide) (by decide) (by decide) (by decide)

/-- C3 (counterexample): on the table [100, 60, 20] with busy_time = 1 <=
total_time = 2^32 and no static power, the budget PowerTable[0] = 100 makes
the code return state 2 > 0 (the quotient 100 * 2^32 loses its upper bits);
with busy_time = total_time = 2^63 the product wraps and the code again
returns state 2; and on a table whose first entry is 2^31 + 100 the budget
2^31 + 100 is read as a negative `s32` and state 2 is returned. -/
theorem power2state_of_state_power_counterexample :
    (devfreq_cooling_power2state (example_dfc (2 ^ 32) 1) 100 = Result.ok 2
      ∧ (example_dfc (2 ^ 32) 1).power_table = some [100, 60, 20]
      ∧ get_static_power (example_dfc (2 ^ 32) 1) 1000000000 = some 0)
    ∧ devfreq_cooling_power2state (example_dfc (2 ^ 63) (2 ^ 63)) 100 = Result.ok 2
    ∧ (devfreq_cooling_power2state (example_dfc_large 1 1) (2 ^ 31 + 100) = Result.ok 2
      ∧ (example_dfc_large 1 1).power_table = some [2 ^ 31 + 100, 60, 20]
      ∧ get_static_power (example_dfc_large 1 1) 1000000000 = some 0) := by
  decide

/-! ## C4: `state2power` -/

/-- C4 (amended): for every state s with 0 <= s < N,
`devfreq_cooling_state2power` succeeds and reports, as a `u32`, the sum
modulo 2^32 of PowerTable[s] and the static power computed for the frequency
freq_table[s] of that same state; this is the exact sum PowerTable[s] +
staticPower whenever the sum is below 2^32. -/
theorem state2power_value (dfc : devfreq_cooling_device) (pt : List Nat)
    (s f p sp : Nat)
    (hs : s < dfc.freq_table_size) (hf : dfc.freq_table[s]? = some f)
    (hpt : dfc.power_table = some pt) (hp : pt[s]? = some p)
    (hsp : get_static_power dfc f = some sp) :
    devfreq_cooling_state2power dfc s = Result.ok ((p + sp % 2 ^ 32) % 2 ^ 32)
    ∧ (p + sp < 2 ^ 32 → devfreq_cooling_state2power dfc s = Result.ok (p + sp)) := by
  have h : devfreq_cooling_state2power dfc s = Result.ok ((p + sp % 2 ^ 32) % 2 ^ 32) := by
    unfold devfreq_cooling_state2power
    rw [if_neg (by omega), hf]
    dsimp only
    rw [hsp, hpt]
    dsimp only [Option.some_bind]
    rw [hp]
    rfl
  refine ⟨h, fun hlt => ?_⟩
  rw [h, Nat.mod_eq_of_lt (by omega : sp < 2 ^ 32), Nat.mod_eq_of_lt hlt]

/-- C4 (witness): state 1 of the example device with 7 mW of static power
reports 60 + 7 mW. -/
theorem state2power_value_witness :
    devfreq_cooling_state2power (example_dfc_static 7 1 1) 1
        = Result.ok ((60 + 7 % 2 ^ 32) % 2 ^ 32)
    ∧ (60 + 7 < 2 ^ 32 →
        devfreq_cooling_state2power (example_dfc_static 7 1 1) 1 = Result.ok (60 + 7)) :=
  state2power_value (example_dfc_static 7 1 1) [100, 60, 20] 1 800000000 60 7
    (by decide) rfl rfl rfl (by decide)

/-- C4 (counterexample): with PowerTable[0] = 2^31 + 100 mW and a static
power of 2^31 mW the sum is 2^32 + 100 mW, but state2power reports 100 mW. -/
theorem state2power_value_counterexample :
    devfreq_cooling_state2power
        { example_dfc_large 1 1 with power_ops := some (example_static_ops (2 ^ 31)) } 0
      = Result.ok 100
    ∧ get_static_power
        { example_dfc_large 1 1 with power_ops := some (example_static_ops (2 ^ 31)) }
        1000000000 = some (2 ^ 31)
    ∧ (2 ^ 31 + 100) + 2 ^ 31 ≠ 100 := by
  decide

/-! ## C5: committing a new cooling state -/

/-- C5 (amended): for every in-range new state s (s < N): without
CONFIG_HISI_IPA_THERMAL, if s differs from the current cooling state, the
call returns the status of the State Applier `partition_enable_opps`, and the
cooling state becomes s when that status is 0 and keeps its previous value
otherwise; with CONFIG_HISI_IPA_THERMAL, if the state raised to the IPA limit
state differs from the current cooling state, the call returns 0 and the
cooling state becomes that raised state, whatever `update_devfreq` reports. -/
theorem set_cur_state_commit (ext : External) (sys : cooling_system) (s : Nat)
    (hlen : sys.dfc.freq_table.length = sys.dfc.freq_table_size)
    (hs : s < sys.dfc.freq_table_size) :
    (s ≠ devfreq_cooling_get_cur_state sys.dfc →
      ∃ ret opps, partition_enable_opps ext sys.dfc s = some (ret, opps) ∧
        ∃ sys1, devfreq_cooling_set_cur_state false ext sys s = some (ret, sys1) ∧
          devfreq_cooling_get_cur_state sys1.dfc
            = if ret = 0 then s else devfreq_cooling_get_cur_state sys.dfc)
    ∧ (set_cur_state_limited sys.dfc sys.ipa s ≠ devfreq_cooling_get_cur_state sys.dfc →
      ∃ sys1, devfreq_cooling_set_cur_state true ext sys s = some (0, sys1) ∧
        devfreq_cooling_get_cur_state sys1.dfc = set_cur_state_limited sys.dfc sys.ipa s) := by
  unfold devfreq_cooling_get_cur_state
  constructor
  · intro hne
    obtain ⟨ret, opps, hp, sys1, h1, _, h3, _, _⟩ :=
      (set_cur_state_plain ext sys s hlen).2.2 hne hs
    exact ⟨ret, opps, hp, sys1, h1, h3⟩
  · intro hne
    have hlt : set_cur_state_limited sys.dfc sys.ipa s < sys.dfc.freq_table_size := by
      unfold set_cur_state_limited
      dsimp only
      split
      · exact max_lt hs (by assumption)
      · exact hs
    obtain ⟨_, _, _, _, _, h3⟩ := set_cur_state_hisi ext sys s hlen
    obtain ⟨sys1, h1, h2, _⟩ := h3 hne (Or.inr hlt)
    exact ⟨sys1, h1, by rw [h2]⟩

/-- C5 (witness): on the example device in state 0, without
CONFIG_HISI_IPA_THERMAL, setting state 1 returns 0 and commits state 1 when
the OPP calls succeed, and returns -EINVAL and keeps state 0 when they fail;
with CONFIG_HISI_IPA_THERMAL and no IPA limit it returns 0 and commits
state 1. -/
theorem set_cur_state_commit_witness :
    observe (devfreq_cooling_set_cur_state false example_ext_ok example_sys 1)
      = some (0, 1, 1)
    ∧ observe (devfreq_cooling_set_cur_state false example_ext_failing example_sys 1)
      = some (-EINVAL, 0, 1)
    ∧ (∃ ret opps, partition_enable_opps example_ext_failing example_sys.dfc 1
          = some (ret, opps) ∧
        ∃ sys1, devfreq_cooling_set_cur_state false example_ext_failing example_sys 1
            = some (ret, sys1) ∧
          devfreq_cooling_get_cur_state sys1.dfc
            = if ret = 0 then 1 else devfreq_cooling_get_cur_state example_sys.dfc)
    ∧ (∃ sys1, devfreq_cooling_set_cur_state true example_ext_ok example_sys 1
        = some (0, sys1) ∧
        devfreq_cooling_get_cur_state sys1.dfc
          = set_cur_state_limited example_sys.dfc example_sys.ipa 1) :=
  ⟨by decide, by decide,
    (set_cur_state_commit example_ext_failing example_sys 1 rfl (by decide)).1 (by decide),
    (set_cur_state_commit example_ext_ok example_sys 1 rfl (by decide)).2 (by decide)⟩

/-- C5 (counterexample): with CONFIG_HISI_IPA_THERMAL, on the example device
in state 0 (ceiling 1000 MHz), setting the in-range state 1 invokes
`update_devfreq` once; although it fails with -EINVAL the call returns 0 and
the cooling state becomes 1.  And with the soc limit state at 2 the same call
commits state 2, not the requested state 1, even when the applier succeeds. -/
theorem set_cur_state_commit_counterexample :
    (observe (devfreq_cooling_set_cur_state true example_ext_failing example_sys 1)
        = some (0, 1, 1)
      ∧ example_ext_failing.update_devfreq = -EINVAL
      ∧ devfreq_cooling_get_cur_state example_sys.dfc = 0)
    ∧ observe (devfreq_cooling_set_cur_state true example_ext_ok example_sys_limited 1)
        = some (0, 2, 1) := by
  decide

/-! ## C6: the requested power at a non-empty utilisation sample -/

/-- C6 (amended): in a strictly descending frequency table, for a current
frequency equal to freq_table[s] and a utilisation sample with total_time >
0, `devfreq_cooling_get_requested_power` reports, in either configuration,
the `u32` value of (PowerTable[s] * busy_time mod 2^64) / total_time +
staticPower(currentFreq), the product being formed before the division; this
is exactly PowerTable[s] * busy_time / total_time + staticPower(currentFreq)
whenever the product is below 2^64 and the sum is below 2^32. -/
theorem get_requested_power_scaled (cfg : Bool) (dfc : devfreq_cooling_device)
    (pt : List Nat) (s p sp : Nat)
    (hlen : dfc.freq_table.length = dfc.freq_table_size)
    (hsz : dfc.freq_table_size < 2 ^ 64)
    (hsorted : dfc.freq_table.Sorted (· > ·))
    (hs : dfc.freq_table[s]? = some dfc.devfreq.last_status.current_frequency)
    (hpt : dfc.power_table = some pt) (hp : pt[s]? = some p)
    (hsp : get_static_power dfc dfc.devfreq.last_status.current_frequency = some sp)
    (htot : 0 < dfc.devfreq.last_status.total_time) :
    devfreq_cooling_get_requested_power cfg dfc
      = Result.ok ((((p * dfc.devfreq.last_status.busy_time) % 2 ^ 64
          / dfc.devfreq.last_status.total_time) % 2 ^ 32 + sp % 2 ^ 32) % 2 ^ 32)
    ∧ (p * dfc.devfreq.last_status.busy_time < 2 ^ 64 →
        p * dfc.devfreq.last_status.busy_time / dfc.devfreq.last_status.total_time + sp
          < 2 ^ 32 →
        devfreq_cooling_get_requested_power cfg dfc
          = Result.ok (p * dfc.devfreq.last_status.busy_time
              / dfc.devfreq.last_status.total_time + sp)) := by
  have hslt : s < dfc.freq_table.length := by
    by_contra hge
    rw [List.getElem?_eq_none (by omega)] at hs
    cases hs
  have hstate := freq_get_state_first dfc _ s hlen hs
    (sorted_first_index dfc.freq_table hsorted s _ hs)
  have hvalid : s ≠ THERMAL_CSTATE_INVALID := by
    unfold THERMAL_CSTATE_INVALID ULONG_MAX
    omega
  have h := get_requested_power_eval cfg dfc pt s p sp hstate hvalid hpt hp hsp (by omega)
  unfold to_u32 to_ulong at h
  refine ⟨h, fun hmul hsum => ?_⟩
  rw [h, Nat.mod_eq_of_lt hmul,
    Nat.mod_eq_of_lt (lt_of_le_of_lt (Nat.le_add_right _ _) hsum),
    Nat.mod_eq_of_lt (lt_of_le_of_lt (Nat.le_add_left _ _) hsum), Nat.mod_eq_of_lt hsum]

/-- C6 (witness): the example device at 1000 MHz (state 0, 100 mW), busy 1000
of 2000 time units, with 7 mW static power, requests 100 * 1000 / 2000 + 7
mW. -/
theorem get_requested_power_scaled_witness :
    devfreq_cooling_get_requested_power true (example_dfc_static 7 2000 1000)
      = Result.ok ((((100 * 1000) % 2 ^ 64 / 2000) % 2 ^ 32 + 7 % 2 ^ 32) % 2 ^ 32)
    ∧ (100 * 1000 < 2 ^ 64 → 100 * 1000 / 2000 + 7 < 2 ^ 32 →
        devfreq_cooling_get_requested_power true (example_dfc_static 7 2000 1000)
          = Result.ok (100 * 1000 / 2000 + 7)) :=
  get_requested_power_scaled true (example_dfc_static 7 2000 1000) [100, 60, 20] 0 100 7
    rfl (by decide) (by decide) rfl rfl rfl (by decide) (by decide)

/-- C6 (counterexample): at state 0 (100 mW) with busy_time = total_time =
2^63 and no static power the claim gives 100 * 2^63 / 2^63 + 0 = 100 mW, but
the 64-bit product wraps to 0 and the code reports 0 mW, in both
configurations; and in a table that stores the current frequency at states 0
and 1 the code uses PowerTable[0] = 100, not PowerTable[1] = 60. -/
theorem get_requested_power_scaled_counterexample :
    (devfreq_cooling_get_requested_power true (example_dfc (2 ^ 63) (2 ^ 63)) = Result.ok 0
      ∧ devfreq_cooling_get_requested_power false (example_dfc (2 ^ 63) (2 ^ 63))
          = Result.ok 0
      ∧ (example_dfc (2 ^ 63) (2 ^ 63)).freq_table[0]? = some 1000000000
      ∧ get_static_power (example_dfc (2 ^ 63) (2 ^ 63)) 1000000000 = some 0
      ∧ 100 * 2 ^ 63 / 2 ^ 63 + 0 = 100)
    ∧ (devfreq_cooling_get_requested_power true (example_dfc_duplicate 1 1) = Result.ok 100
      ∧ (example_dfc_duplicate 1 1).freq_table[1]? = some 1000000000
      ∧ 60 * 1 / 1 + 0 = 60) := by
  decide

/-! ## C7: the requested power without a utilisation sample -/

/-- C7 (amended): with CONFIG_HISI_IPA_THERMAL, in a strictly descending
frequency table, for a current frequency equal to freq_table[s],
`devfreq_cooling_get_requested_power` called with total_time = 0 succeeds and
reports the unscaled PowerTable[s] plus the static power of the current
frequency (modulo 2^32); this is exactly PowerTable[s] when that static power
is 0. -/
theorem get_requested_power_no_sample (dfc : devfreq_cooling_device)
    (pt : List Nat) (s p sp : Nat)
    (hlen : dfc.freq_table.length = dfc.freq_table_size)
    (hsz : dfc.freq_table_size < 2 ^ 64)
    (hsorted : dfc.freq_table.Sorted (· > ·))
    (hs : dfc.freq_table[s]? = some dfc.devfreq.last_status.current_frequency)
    (hpt : dfc.power_table = some pt) (hp : pt[s]? = some p) (hp32 : p < 2 ^ 32)
    (hsp : get_static_power dfc dfc.devfreq.last_status.current_frequency = some sp)
    (htot : dfc.devfreq.last_status.total_time = 0) :
    devfreq_cooling_get_requested_power true dfc
      = Result.ok ((p + sp % 2 ^ 32) % 2 ^ 32)
    ∧ (sp = 0 → devfreq_cooling_get_requested_power true dfc = Result.ok p) := by
  have hslt : s < dfc.freq_table.length := by
    by_contra hge
    rw [List.getElem?_eq_none (by omega)] at hs
    cases hs
  have hstate := freq_get_state_first dfc _ s hlen hs
    (sorted_first_index dfc.freq_table hsorted s _ hs)
  have hvalid : s ≠ THERMAL_CSTATE_INVALID := by
    unfold THERMAL_CSTATE_INVALID ULONG_MAX
    omega
  have h := get_requested_power_eval_idle true dfc pt s p hstate hvalid hpt hp htot
  rw [if_pos rfl, hsp] at h
  dsimp only at h
  unfold to_u32 at h
  refine ⟨h, fun h0 => ?_⟩
  rw [h, h0, Nat.zero_mod, Nat.add_zero, Nat.mod_eq_of_lt hp32]

/-- C7 (witness): the example device at 1000 MHz without a utilisation sample
and without static power requests the unscaled 100 mW. -/
theorem get_requested_power_no_sample_witness :
    devfreq_cooling_get_requested_power true (example_dfc 0 0)
      = Result.ok ((100 + 0 % 2 ^ 32) % 2 ^ 32)
    ∧ (0 = 0 → devfreq_cooling_get_requested_power true (example_dfc 0 0) = Result.ok 100) :=
  get_requested_power_no_sample (example_dfc 0 0) [100, 60, 20] 0 100 0
    rfl (by decide) (by decide) rfl rfl rfl (by decide) (by decide) rfl

/-- C7 (counterexample): with total_time = 0 and a static power of 7 mW the
CONFIG_HISI_IPA_THERMAL build reports 107 mW, not the table entry 100 mW; the
build without the option divides by total_time = 0. -/
theorem get_requested_power_no_sample_counterexample :
    devfreq_cooling_get_requested_power true (example_dfc_static 7 0 0) = Result.ok 107
    ∧ (example_dfc_static 7 0 0).power_table = some [100, 60, 20]
    ∧ (example_dfc_static 7 0 0).freq_table[0]? = some 1000000000
    ∧ devfreq_cooling_get_requested_power false (example_dfc_static 7 0 0)
        = Result.undefined := by
  decide

/-! ## C8: out-of-range states -/

/-- C8 (amended): for every state value v >= N, `devfreq_cooling_state2power`
fails with -EINVAL; without CONFIG_HISI_IPA_THERMAL
`devfreq_cooling_set_cur_state(v)`, for v other than the current cooling
state, fails with -EINVAL and changes nothing; with CONFIG_HISI_IPA_THERMAL
it fails with -EINVAL and leaves the cooling state as it was for every such v
other than THERMAL_NO_LIMIT. -/
theorem out_of_range_state_rejected (ext : External) (sys : cooling_system) (v : Nat)
    (hlen : sys.dfc.freq_table.length = sys.dfc.freq_table_size)
    (hv : v ≥ sys.dfc.freq_table_size) :
    devfreq_cooling_state2power sys.dfc v = Result.fail (-EINVAL)
    ∧ (v ≠ devfreq_cooling_get_cur_state sys.dfc →
        devfreq_cooling_set_cur_state false ext sys v = some (-EINVAL, sys))
    ∧ (v ≠ devfreq_cooling_get_cur_state sys.dfc → v ≠ THERMAL_NO_LIMIT →
        ∃ sys1, devfreq_cooling_set_cur_state true ext sys v = some (-EINVAL, sys1) ∧
          devfreq_cooling_get_cur_state sys1.dfc
            = devfreq_cooling_get_cur_state sys.dfc) := by
  unfold devfreq_cooling_get_cur_state
  refine ⟨?_, fun hne => (set_cur_state_plain ext sys v hlen).2.1 hne hv, fun hne hnl => ?_⟩
  · unfold devfreq_cooling_state2power
    rw [if_pos hv]
  · have hst : set_cur_state_limited sys.dfc sys.ipa v = v := by
      unfold set_cur_state_limited
      dsimp only
      split
      · exact max_eq_left (by omega)
      · rfl
    obtain ⟨ipa1, _, _, _, h2, _⟩ := set_cur_state_hisi ext sys v hlen
    rw [hst] at h2
    exact ⟨_, h2 hne hnl hv, rfl⟩

/-- C8 (witness): on the example device (N = 3, state 0) the state value 3 is
rejected with -EINVAL by state2power and by set_cur_state in both
configurations, and the cooling state stays 0. -/
theorem out_of_range_state_rejected_witness :
    devfreq_cooling_state2power example_sys.dfc 3 = Result.fail (-EINVAL)
    ∧ observe (devfreq_cooling_set_cur_state false example_ext_ok example_sys 3)
        = some (-EINVAL, 0, 0)
    ∧ observe (devfreq_cooling_set_cur_state true example_ext_ok example_sys 3)
        = some (-EINVAL, 0, 0)
    ∧ (∃ sys1, devfreq_cooling_set_cur_state true example_ext_ok example_sys 3
        = some (-EINVAL, sys1) ∧
        devfreq_cooling_get_cur_state sys1.dfc
          = devfreq_cooling_get_cur_state example_sys.dfc) :=
  ⟨by decide, by decide, by decide,
    (out_of_range_state_rejected example_ext_ok example_sys 3 rfl (by decide)).2.2
      (by decide) (by decide)⟩

/-- C8 (counterexample): with CONFIG_HISI_IPA_THERMAL, on the example device
(N = 3, state 0) the out-of-range value THERMAL_NO_LIMIT = 2^32 - 1 is
accepted: the call returns 0 and the cooling state becomes 2^32 - 1; a second
call with the same value, which now equals the cooling state, returns 0 as
well. -/
theorem out_of_range_state_rejected_counterexample :
    observe (devfreq_cooling_set_cur_state true example_ext_ok example_sys THERMAL_NO_LIMIT)
      = some (0, 4294967295, 1)
    ∧ THERMAL_NO_LIMIT ≥ example_sys.dfc.freq_table_size
    ∧ observe
        ((devfreq_cooling_set_cur_state true example_ext_ok example_sys THERMAL_NO_LIMIT).bind
          (fun r => devfreq_cooling_set_cur_state true example_ext_ok r.2 THERMAL_NO_LIMIT))
      = some (0, 4294967295, 1) := by
  decide

/-! ## C9: repeating `set_cur_state` -/

/-- C9 (amended): two successive calls set_cur_state(v); set_cur_state(v)
invoke the State Applier at most once in total unless the first call's
invocation of the applier fails: with CONFIG_HISI_IPA_THERMAL this holds for
every device state and every v (a failure of `update_devfreq` does not fail
the call), and in either configuration it holds whenever the first call
returns 0 if it invoked the applier. -/
theorem set_cur_state_twice (cfg : Bool) (ext : External) (sys : cooling_system) (v : Nat)
    (hlen : sys.dfc.freq_table.length = sys.dfc.freq_table_size) :
    ∃ r1 sys1 r2 sys2,
      devfreq_cooling_set_cur_state cfg ext sys v = some (r1, sys1) ∧
      devfreq_cooling_set_cur_state cfg ext sys1 v = some (r2, sys2) ∧
      ((sys1.applier_calls = sys.applier_calls + 1 → r1 = 0) →
        sys2.applier_calls ≤ sys.applier_calls + 1) ∧
      (cfg = true → sys2.applier_calls ≤ sys.applier_calls + 1) := by
  cases cfg with
  | false =>
    obtain ⟨hsame, hinv, hrun⟩ := set_cur_state_plain ext sys v hlen
    by_cases hcs : v = sys.dfc.cooling_state
    · exact ⟨0, sys, 0, sys, hsame hcs, hsame hcs, fun _ => Nat.le_succ _,
        fun _ => Nat.le_succ _⟩
    · by_cases hN : v ≥ sys.dfc.freq_table_size
      · exact ⟨-EINVAL, sys, -EINVAL, sys, hinv hcs hN, hinv hcs hN, fun _ => Nat.le_succ _,
          fun _ => Nat.le_succ _⟩
      · obtain ⟨ret, opps, _, sys1, h1, hcalls, hstate, hft, hsize⟩ := hrun hcs (by omega)
        have hlen1 : sys1.dfc.freq_table.length = sys1.dfc.freq_table_size := by
          rw [hft, hsize, hlen]
        obtain ⟨hsame1, _, hrun1⟩ := set_cur_state_plain ext sys1 v hlen1
        by_cases h0 : ret = 0
        · rw [if_pos h0] at hstate
          exact ⟨ret, sys1, 0, sys1, h1, hsame1 hstate.symm,
            fun _ => by omega, fun h => by cases h⟩
        · rw [if_neg h0] at hstate
          obtain ⟨ret2, _, _, sys2, h2, _, _, _, _⟩ :=
            hrun1 (by rw [hstate]; exact hcs) (by omega)
          exact ⟨ret, sys1, ret2, sys2, h1, h2,
            fun h => absurd (h hcalls) h0, fun h => by cases h⟩
  | true =>
    obtain ⟨ipa1, hsoc, hboard, hsame, hinv, hrun⟩ := set_cur_state_hisi ext sys v hlen
    by_cases hcs : set_cur_state_limited sys.dfc sys.ipa v = sys.dfc.cooling_state
    · have hst1 : set_cur_state_limited sys.dfc ipa1 v = sys.dfc.cooling_state := by
        rw [← hcs]
        unfold set_cur_state_limited
        rw [hsoc, hboard]
      obtain ⟨ipa2, _, _, hsame1, _, _⟩ :=
        set_cur_state_hisi ext { sys with ipa := ipa1 } v hlen
      exact ⟨0, _, 0, _, hsame hcs, hsame1 hst1, fun _ => Nat.le_succ _,
        fun _ => Nat.le_succ _⟩
    · by_cases hok : set_cur_state_limited sys.dfc sys.ipa v = THERMAL_NO_LIMIT ∨
          set_cur_state_limited sys.dfc sys.ipa v < sys.dfc.freq_table_size
      · obtain ⟨sys1, h1, hdfc, _, hle, hsoc1, hboard1⟩ := hrun hcs hok
        have hlen1 : sys1.dfc.freq_table.length = sys1.dfc.freq_table_size := by
          rw [hdfc]
          exact hlen
        have hst1 : set_cur_state_limited sys1.dfc sys1.ipa v = sys1.dfc.cooling_state := by
          unfold set_cur_state_limited
          rw [hsoc1, hboard1, hdfc]
          rfl
        obtain ⟨ipa2, _, _, hsame1, _, _⟩ := set_cur_state_hisi ext sys1 v hlen1
        exact ⟨0, sys1, 0, _, h1, hsame1 hst1, fun _ => hle, fun _ => hle⟩
      · have hnl : set_cur_state_limited sys.dfc sys.ipa v ≠ THERMAL_NO_LIMIT :=
          fun h => hok (Or.inl h)
        have hge : set_cur_state_limited sys.dfc sys.ipa v ≥ sys.dfc.freq_table_size :=
          not_lt.mp (fun h => hok (Or.inr h))
        have hst1 : set_cur_state_limited sys.dfc ipa1 v
            = set_cur_state_limited sys.dfc sys.ipa v := by
          unfold set_cur_state_limited
          rw [hsoc, hboard]
        obtain ⟨ipa2, _, _, _, hinv1, _⟩ :=
          set_cur_state_hisi ext { sys with ipa := ipa1 } v hlen
        exact ⟨-EINVAL, _, -EINVAL, _, hinv hcs hnl hge,
          hinv1 (by rw [hst1]; exact hcs) (by rw [hst1]; exact hnl) (by rw [hst1]; exact hge),
          fun _ => Nat.le_succ _, fun _ => Nat.le_succ _⟩

/-- C9 (witness): on the example device in state 0, with collaborators that
succeed, set_cur_state(1) twice invokes the State Applier once in total, in
both configurations. -/
theorem set_cur_state_twice_witness :
    observe
        ((devfreq_cooling_set_cur_state false example_ext_ok example_sys 1).bind
          (fun r => devfreq_cooling_set_cur_state false example_ext_ok r.2 1))
      = some (0, 1, 1)
    ∧ (∃ r1 sys1 r2 sys2,
        devfreq_cooling_set_cur_state true example_ext_ok example_sys 1 = some (r1, sys1) ∧
        devfreq_cooling_set_cur_state true example_ext_ok sys1 1 = some (r2, sys2) ∧
        ((sys1.applier_calls = example_sys.applier_calls + 1 → r1 = 0) →
          sys2.applier_calls ≤ example_sys.applier_calls + 1) ∧
        (true = true → sys2.applier_calls ≤ example_sys.applier_calls + 1)) :=
  ⟨by decide, set_cur_state_twice true example_ext_ok example_sys 1 rfl⟩

/-- C9 (counterexample): without CONFIG_HISI_IPA_THERMAL, on the example
device in state 0 with OPP calls that fail, set_cur_state(1) invokes the State
Applier, fails with -EINVAL and keeps state 0; the second set_cur_state(1)
invokes the applier again: two invocations in total. -/
theorem set_cur_state_twice_counterexample :
    observe (devfreq_cooling_set_cur_state false example_ext_failing example_sys 1)
      = some (-EINVAL, 0, 1)
    ∧ observe
        ((devfreq_cooling_set_cur_state false example_ext_failing example_sys 1).bind
          (fun r => devfreq_cooling_set_cur_state false example_ext_failing r.2 1))
      = some (-EINVAL, 0, 2)
    ∧ example_sys.applier_calls = 0 := by
  decide

/-! ## C10: unknown frequencies -/

/-- C10: in either configuration `devfreq_cooling_get_requested_power` fails
with -EAGAIN if and only if the current frequency equals no entry of the
frequency table; and for a strictly descending frequency table
`freq_get_state` maps freq_table[s] to s, so that the power table entry the
request is computed from is PowerTable[s] for the state s whose frequency is
the current one. -/
theorem get_requested_power_unknown_frequency (cfg : Bool) (dfc : devfreq_cooling_device)
    (hlen : dfc.freq_table.length = dfc.freq_table_size)
    (hsz : dfc.freq_table_size < 2 ^ 64) :
    (devfreq_cooling_get_requested_power cfg dfc = Result.fail (-EAGAIN)
      ↔ dfc.devfreq.last_status.current_frequency ∉ dfc.freq_table)
    ∧ (dfc.freq_table.Sorted (· > ·) →
        (∀ s f : Nat, s < dfc.freq_table_size → dfc.freq_table[s]? = some f →
          freq_get_state dfc f = some s)
        ∧ (∀ (s : Nat) (pt : List Nat) (p sp : Nat), dfc.freq_table[s]? = some dfc.devfreq.last_status.current_frequency →
            dfc.power_table = some pt → pt[s]? = some p →
            get_static_power dfc dfc.devfreq.last_status.current_frequency = some sp →
            dfc.devfreq.last_status.total_time ≠ 0 →
            devfreq_cooling_get_requested_power cfg dfc
              = Result.ok (to_u32 (to_u32 (to_ulong (p * dfc.devfreq.last_status.busy_time)
                  / dfc.devfreq.last_status.total_time) + to_u32 sp)))) := by
  refine ⟨get_requested_power_eagain_iff cfg dfc hlen hsz, fun hsorted => ⟨?_, ?_⟩⟩
  · intro s f _ hs
    exact freq_get_state_first dfc f s hlen hs (sorted_first_index dfc.freq_table hsorted s f hs)
  · intro s pt p sp hs hpt hp hsp htot
    have hslt : s < dfc.freq_table.length := by
      by_contra hge
      rw [List.getElem?_eq_none (by omega)] at hs
      cases hs
    have hstate := freq_get_state_first dfc _ s hlen hs
      (sorted_first_index dfc.freq_table hsorted s _ hs)
    have hvalid : s ≠ THERMAL_CSTATE_INVALID := by
      unfold THERMAL_CSTATE_INVALID ULONG_MAX
      omega
    exact get_requested_power_eval cfg dfc pt s p sp hstate hvalid hpt hp hsp htot

/-- C10 (witness): the example device running at 900 MHz, which is not in its
table [1000, 800, 500] MHz, fails with -EAGAIN. -/
theorem get_requested_power_unknown_frequency_witness :
    devfreq_cooling_get_requested_power false example_dfc_untracked = Result.fail (-EAGAIN)
    ∧ freq_get_state example_dfc_untracked 800000000 = some 1 :=
  have h := get_requested_power_unknown_frequency false example_dfc_untracked rfl (by decide)
  ⟨h.1.mpr (by decide), (h.2 (by decide)).1 1 800000000 (by decide) rfl⟩

/-! ## C11: `state2power` is monotonic in the state -/

/-- C11 (amended): for tables built by `devfreq_cooling_gen_tables` (both
`kcalloc` calls succeeding) from a source whose available frequencies are
pairwise distinct and below 2^32 Hz and whose voltage is non-decreasing in
frequency, with supplied dynamic and static power functions that are
monotonic non-decreasing in frequency and voltage and whose sum stays below
2^32 at every operating point, state2power is monotonically non-increasing in
the state: for all states s <= t < N, state2power(t) <= state2power(s). -/
theorem state2power_antitone (ext : External) (dfc : devfreq_cooling_device)
    (ops : devfreq_cooling_power) (df : Nat → Nat → Nat) (sf : Nat → Nat)
    (halloc1 : ext.kcalloc_power_table = true) (halloc2 : ext.kcalloc_freq_table = true)
    (hnodup : (available_rates dfc.devfreq.opps).Nodup)
    (h32 : ∀ r ∈ available_rates dfc.devfreq.opps, r < 2 ^ 32)
    (hops : dfc.power_ops = some ops)
    (hdf : ops.get_dynamic_power = some df) (hsf : ops.get_static_power = some sf)
    (hvolt : ∀ o1 ∈ dfc.devfreq.opps, ∀ o2 ∈ dfc.devfreq.opps,
      o1.available = true → o2.available = true → o1.rate ≤ o2.rate →
      o1.u_volt ≤ o2.u_volt)
    (hdmono : ∀ f1 f2 v1 v2, f1 ≤ f2 → v1 ≤ v2 → df f1 v1 ≤ df f2 v2)
    (hsmono : ∀ v1 v2, v1 ≤ v2 → sf v1 ≤ sf v2)
    (hfit : ∀ o ∈ dfc.devfreq.opps, o.available = true →
      df o.rate (o.u_volt / 1000) + sf (o.u_volt / 1000) < 2 ^ 32) :
    ∃ dfc1, devfreq_cooling_gen_tables ext dfc = some (0, dfc1) ∧
      ∀ s t, s ≤ t → t < dev_pm_opp_get_opp_count dfc.devfreq.opps →
        ∃ a b, devfreq_cooling_state2power dfc1 s = Result.ok a ∧
          devfreq_cooling_state2power dfc1 t = Result.ok b ∧ b ≤ a := by
  obtain ⟨os, hlen, hmem, hsorted, hrun⟩ := gen_tables_built ext dfc halloc1 halloc2 hnodup h32
  have hsome : dfc.power_ops.isSome = true := by rw [hops]; rfl
  refine ⟨_, hrun, fun s t hst ht => ?_⟩
  have htlt : t < os.length := by omega
  have hslt : s < os.length := by omega
  have hos : os[s]? = some os[s] := List.getElem?_eq_getElem hslt
  have hot : os[t]? = some os[t] := List.getElem?_eq_getElem htlt
  have hval := built_state2power
    { dfc with
      power_table :=
        if dfc.power_ops.isSome then
          some (os.map (fun o =>
            to_u32 ((get_dynamic_power dfc o.rate (o.u_volt / 1000)).getD 0)))
        else dfc.power_table,
      freq_table := os.map (fun o => o.rate),
      freq_table_size := dev_pm_opp_get_opp_count dfc.devfreq.opps }
    os ops df sf hops hdf hsf rfl hlen.symm (by simp only [hsome, if_true]; rfl)
    hmem hvolt hfit
  refine ⟨_, _, hval s os[s] hos, hval t os[t] hot, ?_⟩
  have hrate := slots_rate_antitone os hsorted s t os[s] os[t] hos hot hst
  have hms := hmem os[s] (List.getElem_mem _)
  have hmt := hmem os[t] (List.getElem_mem _)
  have hv := hvolt os[t] hmt.1 os[s] hms.1 hmt.2 hms.2 hrate
  have hmv : os[t].u_volt / 1000 ≤ os[s].u_volt / 1000 := Nat.div_le_div_right hv
  have hD := hdmono _ _ _ _ hrate hmv
  have hS := hsmono _ _ hmv
  apply Nat.add_le_add hD
  by_cases hzt : os[t].u_volt / 1000 = 0
  · rw [if_pos hzt]
    exact Nat.zero_le _
  · rw [if_neg hzt, if_neg (by omega)]
    exact hS

/-- C11 (witness): with the supplied model (dynamic freq / 10^7 + voltage /
10, static voltage / 100) the source holding 800, 500 and 1000 MHz at 800,
700 and 900 mV gives state2power 199, 168 and 127 mW for the states 0, 1 and
2. -/
theorem state2power_antitone_witness :
    observe_state2power (devfreq_cooling_gen_tables example_ext_ok
        (fresh_dfc example_devfreq_unordered (some example_supplied_ops)))
      = some (Result.ok 199, Result.ok 168, Result.ok 127)
    ∧ (∃ dfc1, devfreq_cooling_gen_tables example_ext_ok
          (fresh_dfc example_devfreq_unordered (some example_supplied_ops)) = some (0, dfc1) ∧
        ∀ s t, s ≤ t → t < dev_pm_opp_get_opp_count
            (fresh_dfc example_devfreq_unordered (some example_supplied_ops)).devfreq.opps →
          ∃ a b, devfreq_cooling_state2power dfc1 s = Result.ok a ∧
            devfreq_cooling_state2power dfc1 t = Result.ok b ∧ b ≤ a) :=
  ⟨by decide,
    state2power_antitone example_ext_ok
      (fresh_dfc example_devfreq_unordered (some example_supplied_ops)) example_supplied_ops
      (fun f v => f / 10000000 + v / 10) (fun v => v / 100)
      rfl rfl (by decide) (by decide) rfl rfl rfl (by decide)
      (fun _ _ _ _ hf hv => Nat.add_le_add (Nat.div_le_div_right hf) (Nat.div_le_div_right hv))
      (fun _ _ hv => Nat.div_le_div_right hv) (by decide)⟩

/-- C11 (counterexample): with the supplied monotonic model (dynamic 5 *
freq, static 0) the source holding 1000, 800 and 500 MHz gives state2power(0)
= 705032704 mW (5 * 10^9 truncated to `u32`) but state2power(1) = 4000000000
mW: the power of state 1 exceeds that of state 0. -/
theorem state2power_antitone_counterexample :
    observe_state2power (devfreq_cooling_gen_tables example_ext_ok
        (fresh_dfc example_devfreq_unordered (some example_steep_ops)))
      = some (Result.ok 705032704, Result.ok 4000000000, Result.ok 2500000000)
    ∧ (∀ f1 f2 v1 v2 : Nat, f1 ≤ f2 → v1 ≤ v2 →
        (fun f (_ : Nat) => 5 * f) f1 v1 ≤ (fun f (_ : Nat) => 5 * f) f2 v2)
    ∧ example_steep_ops.get_dynamic_power.isSome = true
    ∧ (∀ o1 ∈ example_devfreq_unordered.opps, ∀ o2 ∈ example_devfreq_unordered.opps,
        o1.available = true → o2.available = true → o1.rate ≤ o2.rate →
        o1.u_volt ≤ o2.u_volt) :=
  ⟨by decide, fun _ _ _ _ hf _ => Nat.mul_le_mul_left 5 hf, by decide, by decide⟩

/-! ## C12: the cooling state stays a table index -/

/-- C12 (amended): starting from the state of a freshly registered device with
N >= 1 operating points, after every sequence of
`devfreq_cooling_set_cur_state` calls (successful or failing, with any
arguments) get_max_state returns N-1 and, without CONFIG_HISI_IPA_THERMAL,
the value returned by get_cur_state is <= the value returned by
get_max_state; with CONFIG_HISI_IPA_THERMAL the value returned by
get_cur_state is <= that of get_max_state or is THERMAL_NO_LIMIT. -/
theorem cooling_state_in_range (ext : External) (df : devfreq)
    (power_ops : Option devfreq_cooling_power) (ipa : hisi_ipa) (sys : cooling_system)
    (calls : List (External × Nat))
    (hreg : registered_system ext df power_ops ipa = some sys)
    (hN : 1 ≤ dev_pm_opp_get_opp_count df.opps)
    (hN64 : dev_pm_opp_get_opp_count df.opps < 2 ^ 64) :
    (∃ sys1, set_cur_state_calls false calls sys = some sys1 ∧
      devfreq_cooling_get_cur_state sys1.dfc ≤ devfreq_cooling_get_max_state sys1.dfc ∧
      devfreq_cooling_get_max_state sys1.dfc = dev_pm_opp_get_opp_count df.opps - 1)
    ∧ (∃ sys1, set_cur_state_calls true calls sys = some sys1 ∧
      (devfreq_cooling_get_cur_state sys1.dfc ≤ devfreq_cooling_get_max_state sys1.dfc ∨
        devfreq_cooling_get_cur_state sys1.dfc = THERMAL_NO_LIMIT) ∧
      devfreq_cooling_get_max_state sys1.dfc = dev_pm_opp_get_opp_count df.opps - 1) := by
  obtain ⟨hlen, hsize, hcs⟩ := registered_system_spec ext df power_ops ipa sys hreg
  have hmax : ∀ sys1 : cooling_system,
      sys1.dfc.freq_table_size = dev_pm_opp_get_opp_count df.opps →
      devfreq_cooling_get_max_state sys1.dfc = dev_pm_opp_get_opp_count df.opps - 1 := by
    intro sys1 h
    unfold devfreq_cooling_get_max_state to_ulong
    rw [h]
    omega
  unfold devfreq_cooling_get_cur_state
  constructor
  · obtain ⟨sys1, hrun, hsz, hlt⟩ := set_cur_state_calls_plain
      (dev_pm_opp_get_opp_count df.opps) calls sys hlen hsize (by omega)
    refine ⟨sys1, hrun, ?_, hmax sys1 hsz⟩
    rw [hmax sys1 hsz]
    omega
  · obtain ⟨sys1, hrun, hsz, hlt⟩ := set_cur_state_calls_hisi
      (dev_pm_opp_get_opp_count df.opps) calls sys hlen hsize (Or.inl (by omega))
    refine ⟨sys1, hrun, ?_, hmax sys1 hsz⟩
    rw [hmax sys1 hsz]
    rcases hlt with hlt | hlt
    · exact Or.inl (by omega)
    · exact Or.inr hlt

/-- C12 (witness): the device registered from the source holding 800, 500 and
1000 MHz, after the calls set_cur_state(2), set_cur_state(7) and a failing
set_cur_state(1), is in state 2 with maximum state 2, in both
configurations. -/
theorem cooling_state_in_range_witness :
    registered_system example_ext_ok example_devfreq_unordered none example_ipa
      = some example_registered
    ∧ observe_states (set_cur_state_calls false
        [(example_ext_ok, 2), (example_ext_ok, 7), (example_ext_failing, 1)]
        example_registered)
      = some (2, 2)
    ∧ (∃ sys1, set_cur_state_calls false
          [(example_ext_ok, 2), (example_ext_ok, 7), (example_ext_failing, 1)]
          example_registered = some sys1 ∧
        devfreq_cooling_get_cur_state sys1.dfc ≤ devfreq_cooling_get_max_state sys1.dfc ∧
        devfreq_cooling_get_max_state sys1.dfc
          = dev_pm_opp_get_opp_count example_devfreq_unordered.opps - 1)
    ∧ (∃ sys1, set_cur_state_calls true
          [(example_ext_ok, 2), (example_ext_ok, 7), (example_ext_failing, 1)]
          example_registered = some sys1 ∧
        (devfreq_cooling_get_cur_state sys1.dfc ≤ devfreq_cooling_get_max_state sys1.dfc ∨
          devfreq_cooling_get_cur_state sys1.dfc = THERMAL_NO_LIMIT) ∧
        devfreq_cooling_get_max_state sys1.dfc
          = dev_pm_opp_get_opp_count example_devfreq_unordered.opps - 1) :=
  ⟨rfl, by decide,
    (cooling_state_in_range example_ext_ok example_devfreq_unordered none example_ipa
      example_registered
      [(example_ext_ok, 2), (example_ext_ok, 7), (example_ext_failing, 1)] rfl
      (by decide) (by decide)).1,
    (cooling_state_in_range example_ext_ok example_devfreq_unordered none example_ipa
      example_registered
      [(example_ext_ok, 2), (example_ext_ok, 7), (example_ext_failing, 1)] rfl
      (by decide) (by decide)).2⟩

/-- C12 (counterexample): with CONFIG_HISI_IPA_THERMAL, the device registered
from the source holding 800, 500 and 1000 MHz (N = 3) is, after the single
call set_cur_state(THERMAL_NO_LIMIT), in cooling state 2^32 - 1 while
get_max_state returns 2. -/
theorem cooling_state_in_range_counterexample :
    observe_states
        ((registered_system example_ext_ok example_devfreq_unordered none example_ipa).bind
          (set_cur_state_calls true [(example_ext_ok, THERMAL_NO_LIMIT)]))
      = some (4294967295, 2)
    ∧ dev_pm_opp_get_opp_count example_devfreq_unordered.opps = 3 := by
  decide

/-! ## C13: the dynamic power model -/

/-- C13 (amended): `get_dynamic_power` returns the supplied dynamic-power
function's value (an `unsigned long`) when one is supplied; otherwise it
returns ((coeff * (floor(freq / 10^6) mod 2^32) * voltage^2) mod 2^64) /
10^9, which is floor(coeff * floor(freq / 10^6) * voltage^2 / 10^9) whenever
floor(freq / 10^6) is below 2^32 and the product is below 2^64. -/
theorem get_dynamic_power_value (dfc : devfreq_cooling_device)
    (ops : devfreq_cooling_power) (freq voltage : Nat)
    (hops : dfc.power_ops = some ops) :
    (∀ f, ops.get_dynamic_power = some f →
      get_dynamic_power dfc freq voltage = some (f freq voltage % 2 ^ 64)
      ∧ (f freq voltage < 2 ^ 64 →
          get_dynamic_power dfc freq voltage = some (f freq voltage)))
    ∧ (ops.get_dynamic_power = none →
      get_dynamic_power dfc freq voltage
        = some ((ops.dyn_power_coeff * ((freq / 1000000) % 2 ^ 32) * voltage * voltage)
            % 2 ^ 64 / 1000000000)
      ∧ (freq / 1000000 < 2 ^ 32 →
          ops.dyn_power_coeff * (freq / 1000000) * voltage ^ 2 < 2 ^ 64 →
          get_dynamic_power dfc freq voltage
            = some (ops.dyn_power_coeff * (freq / 1000000) * voltage ^ 2 / 1000000000))) := by
  constructor
  · intro f hf
    have h := get_dynamic_power_supplied dfc ops f freq voltage hops hf
    exact ⟨h, fun hlt => by rw [h, Nat.mod_eq_of_lt hlt]⟩
  · intro hnone
    have h := get_dynamic_power_analytic dfc ops freq voltage hops hnone
    refine ⟨h, fun hmhz hmul => ?_⟩
    have hsq : ops.dyn_power_coeff * (freq / 1000000) * voltage * voltage
        = ops.dyn_power_coeff * (freq / 1000000) * voltage ^ 2 := by
      rw [Nat.pow_two, Nat.mul_assoc (ops.dyn_power_coeff * (freq / 1000000))]
    rw [h, Nat.mod_eq_of_lt hmhz, hsq, Nat.mod_eq_of_lt hmul]

/-- C13 (witness): with coefficient 2000 and no supplied function, 1000 MHz
at 900 mV gives 2000 * 1000 * 900^2 / 10^9 = 1620 mW. -/
theorem get_dynamic_power_value_witness :
    get_dynamic_power (fresh_dfc example_devfreq_unordered (some example_analytic_ops))
        1000000000 900 = some (2000 * (1000000000 / 1000000) * 900 ^ 2 / 1000000000)
    ∧ 2000 * (1000000000 / 1000000) * 900 ^ 2 / 1000000000 = 1620 :=
  ⟨((get_dynamic_power_value
      (fresh_dfc example_devfreq_unordered (some example_analytic_ops))
      example_analytic_ops 1000000000 900 rfl).2 rfl).2 (by decide) (by decide),
    by decide⟩

/-- C13 (counterexample): with coefficient 2^63 and no supplied function, 2
MHz at 1000 mV gives 0, not floor(2^63 * 2 * 1000^2 / 10^9) =
18446744073709551; and with coefficient 1 the frequency 2^32 * 10^6 Hz at
100000 mV gives 0, not floor(2^32 * 100000^2 / 10^9) = 42949672960. -/
theorem get_dynamic_power_value_counterexample :
    (get_dynamic_power
        (fresh_dfc example_devfreq_slow
          (some { get_static_power := none, get_dynamic_power := none,
                  dyn_power_coeff := 2 ^ 63 }))
        2000000 1000 = some 0
      ∧ 2 ^ 63 * (2000000 / 1000000) * 1000 ^ 2 / 1000000000 = 18446744073709551)
    ∧ (get_dynamic_power
        (fresh_dfc example_devfreq_slow
          (some { get_static_power := none, get_dynamic_power := none,
                  dyn_power_coeff := 1 }))
        (2 ^ 32 * 1000000) 100000 = some 0
      ∧ 1 * (2 ^ 32 * 1000000 / 1000000) * 100000 ^ 2 / 1000000000 = 42949672960) := by
  decide

/-! ## C14: the static power model -/

/-- C14: `get_static_power` of a device with a power model never fails its
caller: it returns 0 when no static-power function is supplied; with a
supplied function it looks the frequency up among the available operating
points first and among the unavailable ones second, returns 0 when no
operating point is found or the voltage found is 0 mV, and otherwise returns
the supplied function applied to the operating point's voltage in mV
(microvolts / 1000). -/
theorem get_static_power_value (dfc : devfreq_cooling_device)
    (ops : devfreq_cooling_power) (freq : Nat) (hops : dfc.power_ops = some ops) :
    (∃ sp, get_static_power dfc freq = some sp)
    ∧ (ops.get_static_power = none → get_static_power dfc freq = some 0)
    ∧ (∀ f, ops.get_static_power = some f → (∀ v, f v < 2 ^ 64) →
        (∀ o, dev_pm_opp_find_freq_exact dfc.devfreq.opps freq true = Except.ok o →
          get_static_power dfc freq
            = if o.u_volt / 1000 = 0 then some 0 else some (f (o.u_volt / 1000)))
        ∧ (∀ e o, dev_pm_opp_find_freq_exact dfc.devfreq.opps freq true = Except.error e →
          dev_pm_opp_find_freq_exact dfc.devfreq.opps freq false = Except.ok o →
          get_static_power dfc freq
            = if o.u_volt / 1000 = 0 then some 0 else some (f (o.u_volt / 1000)))
        ∧ (∀ e1 e2, dev_pm_opp_find_freq_exact dfc.devfreq.opps freq true = Except.error e1 →
          dev_pm_opp_find_freq_exact dfc.devfreq.opps freq false = Except.error e2 →
          get_static_power dfc freq = some 0)) := by
  have hnone : ops.get_static_power = none → get_static_power dfc freq = some 0 := by
    intro h
    unfold get_static_power
    rw [hops]
    dsimp only
    rw [h]
  have hsome : ∀ f, ops.get_static_power = some f → ∀ opp,
      (match dev_pm_opp_find_freq_exact dfc.devfreq.opps freq true with
        | Except.error e =>
          if e = -ERANGE then dev_pm_opp_find_freq_exact dfc.devfreq.opps freq false
          else dev_pm_opp_find_freq_exact dfc.devfreq.opps freq true
        | Except.ok o => Except.ok o) = opp →
      get_static_power dfc freq
        = if dev_pm_opp_get_voltage opp / 1000 = 0 then some 0
          else some (f (dev_pm_opp_get_voltage opp / 1000) % 2 ^ 64) :=
    fun f hf opp hopp => get_static_power_eval dfc ops f freq opp hops hf hopp
  refine ⟨?_, hnone, fun f hf hrange => ⟨fun o h1 => ?_, fun e o h1 h2 => ?_,
    fun e1 e2 h1 h2 => ?_⟩⟩
  · cases hsp : ops.get_static_power with
    | none => exact ⟨0, hnone hsp⟩
    | some f =>
      rw [hsome f hsp _ rfl]
      split
      · exact ⟨_, rfl⟩
      · exact ⟨_, rfl⟩
  · rw [hsome f hf (Except.ok o) (by rw [h1])]
    show (if o.u_volt / 1000 = 0 then some 0 else some (f (o.u_volt / 1000) % 2 ^ 64)) = _
    rw [Nat.mod_eq_of_lt (hrange _)]
  · have he := find_freq_exact_error _ _ _ e h1
    rw [hsome f hf (Except.ok o) (by rw [h1]; dsimp only; rw [if_pos he, h2])]
    show (if o.u_volt / 1000 = 0 then some 0 else some (f (o.u_volt / 1000) % 2 ^ 64)) = _
    rw [Nat.mod_eq_of_lt (hrange _)]
  · have he := find_freq_exact_error _ _ _ e1 h1
    rw [hsome f hf (Except.error e2) (by rw [h1]; dsimp only; rw [if_pos he, h2])]
    exact if_pos (Nat.zero_div 1000)

/-- C14 (witness): on the example device with a static power function
reporting 7 mW, the static power at 800 MHz (an available operating point at
800 mV) is 7 mW, and at 900 MHz (no operating point) it is 0. -/
theorem get_static_power_value_witness :
    get_static_power (example_dfc_static 7 1 1) 800000000 = some 7
    ∧ get_static_power (example_dfc_static 7 1 1) 900000000 = some 0
    ∧ (∃ sp, get_static_power (example_dfc_static 7 1 1) 800000000 = some sp) :=
  ⟨by decide, by decide,
    (get_static_power_value (example_dfc_static 7 1 1) (example_static_ops 7) 800000000
      rfl).1⟩

/-! ## C15: the frequency table holds the source's frequencies -/

/-- C15 (amended): for every operating-point source whose N available
operating points have pairwise distinct frequencies below 2^32 Hz, in
whatever order and with whatever gaps the source holds them, and provided
both `kcalloc` calls succeed, the frequency table built by
`devfreq_cooling_gen_tables` contains each source frequency exactly once and
nothing else: it is a permutation of the source's frequencies, sorted in
strictly descending order. -/
theorem gen_tables_freq_table_is_source (ext : External) (dfc : devfreq_cooling_device)
    (halloc1 : ext.kcalloc_power_table = true) (halloc2 : ext.kcalloc_freq_table = true)
    (hnodup : (available_rates dfc.devfreq.opps).Nodup)
    (h32 : ∀ r ∈ available_rates dfc.devfreq.opps, r < 2 ^ 32) :
    ∃ dfc1, devfreq_cooling_gen_tables ext dfc = some (0, dfc1) ∧
      dfc1.freq_table.Perm (available_rates dfc.devfreq.opps) ∧
      dfc1.freq_table.Nodup ∧
      dfc1.freq_table.Sorted (· > ·) := by
  obtain ⟨os, hlen, hmem, hsorted, hrun⟩ := gen_tables_built ext dfc halloc1 halloc2 hnodup h32
  refine ⟨_, hrun, ?_, ?_, hsorted⟩
  · have hnd : (os.map (fun o => o.rate)).Nodup :=
      List.Pairwise.imp (fun h => Nat.ne_of_gt h) hsorted
    have hsub : os.map (fun o => o.rate) ⊆ available_rates dfc.devfreq.opps := by
      intro r hr
      obtain ⟨o, ho, rfl⟩ := List.mem_map.mp hr
      exact mem_available_rates _ o (hmem o ho).1 (hmem o ho).2
    apply (List.subperm_of_subset hnd hsub).perm_of_length_le
    rw [List.length_map, hlen, available_rates_length]
  · exact List.Pairwise.imp (fun h => Nat.ne_of_gt h) hsorted

/-- C15 (witness): from the source holding 800, 500 and 1000 MHz (and an
unavailable 900 MHz point) the builder installs exactly these three
frequencies, as [1000, 800, 500] MHz. -/
theorem gen_tables_freq_table_is_source_witness :
    (∃ dfc1, devfreq_cooling_gen_tables example_ext_ok
          (fresh_dfc example_devfreq_unordered none) = some (0, dfc1) ∧
        dfc1.freq_table.Perm (available_rates example_devfreq_unordered.opps) ∧
        dfc1.freq_table.Nodup ∧
        dfc1.freq_table.Sorted (· > ·))
    ∧ available_rates example_devfreq_unordered.opps = [800000000, 500000000, 1000000000] :=
  ⟨gen_tables_freq_table_is_source example_ext_ok (fresh_dfc example_devfreq_unordered none)
      rfl rfl (by decide) (by decide),
    by decide⟩

/-- C15 (counterexample): from a source holding the two distinct frequencies
2^32 Hz and 1000 Hz the builder installs [0, 1000]: the table contains 0,
which is no source frequency, and does not contain 2^32. -/
theorem gen_tables_freq_table_is_source_counterexample :
    observe_tables (devfreq_cooling_gen_tables example_ext_ok
        (fresh_dfc example_devfreq_wide none))
      = some (0, [0, 1000], 2, none)
    ∧ available_rates example_devfreq_wide.opps = [4294967296, 1000]
    ∧ (0 : Nat) ∉ available_rates example_devfreq_wide.opps
    ∧ (4294967296 : Nat) ∉ [0, 1000] := by
  decide

/-! ## C16: the power table follows the frequency table -/

/-- C16 (amended): whenever `devfreq_cooling_gen_tables` succeeds: if a power
model is supplied, the power table it installs has the same length N as the
frequency table and, for every index i < N, there is an available operating
point of the source whose frequency is stored (as `u32`) in freq_table[i] and
PowerTable[i] is the low 32 bits of the dynamic power computed from that
frequency and that operating point's voltage in mV; if no power model is
supplied, no power table is installed.  The builder does succeed when both
`kcalloc` calls succeed and the available frequencies are pairwise distinct
and below 2^32 Hz. -/
theorem gen_tables_power_table (ext : External) (dfc : devfreq_cooling_device) :
    (∀ dfc1, devfreq_cooling_gen_tables ext dfc = some (0, dfc1) →
      (dfc.power_ops.isSome = true →
        ∃ pt, dfc1.power_table = some pt ∧ pt.length = dfc1.freq_table.length ∧
          pt.length = dev_pm_opp_get_opp_count dfc.devfreq.opps ∧
          ∀ i, i < dev_pm_opp_get_opp_count dfc.devfreq.opps →
            ∃ o ∈ dfc.devfreq.opps, o.available = true ∧
              dfc1.freq_table[i]? = some (o.rate % 2 ^ 32) ∧
              ∃ pd, get_dynamic_power dfc1 o.rate (o.u_volt / 1000) = some pd ∧
                pt[i]? = some (pd % 2 ^ 32))
      ∧ (dfc.power_ops = none → dfc1.power_table = dfc.power_table))
    ∧ (ext.kcalloc_power_table = true → ext.kcalloc_freq_table = true →
        (available_rates dfc.devfreq.opps).Nodup →
        (∀ r ∈ available_rates dfc.devfreq.opps, r < 2 ^ 32) →
        ∃ dfc1, devfreq_cooling_gen_tables ext dfc = some (0, dfc1)) := by
  constructor
  · intro dfc1 h
    obtain ⟨os, hlen, hmem, hdfc⟩ := gen_tables_success_slots ext dfc dfc1 h
    subst hdfc
    constructor
    · intro hops
      refine ⟨os.map (fun o =>
          to_u32 ((get_dynamic_power dfc o.rate (o.u_volt / 1000)).getD 0)), ?_, ?_, ?_, ?_⟩
      · simp only [hops, if_true]
      · simp only [List.length_map]
      · rw [List.length_map, hlen]
      · intro i hi
        have hi1 : i < os.length := by omega
        obtain ⟨pd, hpd⟩ := get_dynamic_power_total dfc os[i].rate (os[i].u_volt / 1000) hops
        refine ⟨os[i], (hmem _ (List.getElem_mem _)).1, (hmem _ (List.getElem_mem _)).2,
          ?_, pd, hpd, ?_⟩
        · simp only [List.getElem?_map, List.getElem?_eq_getElem hi1, Option.map_some']
          rfl
        · simp only [List.getElem?_map, List.getElem?_eq_getElem hi1, Option.map_some', hpd,
            Option.getD_some]
          rfl
    · intro hnone
      simp only [hnone, Option.isSome_none, Bool.false_eq_true, if_false]
  · intro h1 h2 h3 h4
    obtain ⟨_, _, _, hrun, _⟩ := gen_tables_run ext dfc h1 h2 h3 h4
    exact ⟨_, hrun⟩

/-- C16 (witness): with the built-in formula and coefficient 2000, the source
holding 800, 500 and 1000 MHz at 800, 700 and 900 mV yields the power table
[1620, 1024, 490] mW next to the frequency table [1000, 800, 500] MHz; with
no power model no power table is installed. -/
theorem gen_tables_power_table_witness :
    observe_tables (devfreq_cooling_gen_tables example_ext_ok
        (fresh_dfc example_devfreq_unordered (some example_analytic_ops)))
      = some (0, [1000000000, 800000000, 500000000], 3, some [1620, 1024, 490])
    ∧ observe_tables (devfreq_cooling_gen_tables example_ext_ok
        (fresh_dfc example_devfreq_unordered none))
      = some (0, [1000000000, 800000000, 500000000], 3, none)
    ∧ (∃ dfc1, devfreq_cooling_gen_tables example_ext_ok
        (fresh_dfc example_devfreq_unordered (some example_analytic_ops)) = some (0, dfc1)) :=
  ⟨by decide, by decide,
    (gen_tables_power_table example_ext_ok
      (fresh_dfc example_devfreq_unordered (some example_analytic_ops))).2
      rfl rfl (by decide) (by decide)⟩

/-- C16 (counterexample): with the built-in formula and coefficient 1000 *
2^31, the operating point 2 MHz at 1000 mV has a dynamic power of 2^32 mW,
but the power table entry built for it is 0. -/
theorem gen_tables_power_table_counterexample :
    observe_tables (devfreq_cooling_gen_tables example_ext_ok
        (fresh_dfc example_devfreq_slow (some example_huge_ops)))
      = some (0, [2000000, 1000000], 2, some [0, 2147483648])
    ∧ get_dynamic_power (fresh_dfc example_devfreq_slow (some example_huge_ops))
        2000000 1000 = some 4294967296 := by
  decide

/-! ## C17: the built-in formula gives a monotonic power table -/

/-- C17 (amended): with the built-in analytic dynamic power formula (no
dynamic function supplied), for every coefficient and every operating-point
source whose voltage is non-decreasing in frequency, whose available
frequencies are pairwise distinct and below 2^32 Hz, and for whose operating
points coeff * freq_MHz * voltage_mV^2 stays below 2^64 and the resulting
power below 2^32, the power table built by `devfreq_cooling_gen_tables` (both
`kcalloc` calls succeeding) is monotonic: PowerTable[i+1] <= PowerTable[i]
for every i with i+1 < N. -/
theorem gen_tables_power_table_monotone (ext : External) (dfc : devfreq_cooling_device)
    (ops : devfreq_cooling_power)
    (halloc1 : ext.kcalloc_power_table = true) (halloc2 : ext.kcalloc_freq_table = true)
    (hnodup : (available_rates dfc.devfreq.opps).Nodup)
    (h32 : ∀ r ∈ available_rates dfc.devfreq.opps, r < 2 ^ 32)
    (hops : dfc.power_ops = some ops) (hnone : ops.get_dynamic_power = none)
    (hvolt : ∀ o1 ∈ dfc.devfreq.opps, ∀ o2 ∈ dfc.devfreq.opps,
      o1.available = true → o2.available = true → o1.rate ≤ o2.rate →
      o1.u_volt ≤ o2.u_volt)
    (hfit : ∀ o ∈ dfc.devfreq.opps, o.available = true →
      ops.dyn_power_coeff * (o.rate / 1000000) * (o.u_volt / 1000) ^ 2 < 2 ^ 64 ∧
      ops.dyn_power_coeff * (o.rate / 1000000) * (o.u_volt / 1000) ^ 2 / 1000000000
        < 2 ^ 32) :
    ∃ dfc1 pt, devfreq_cooling_gen_tables ext dfc = some (0, dfc1) ∧
      dfc1.power_table = some pt ∧
      pt.length = dev_pm_opp_get_opp_count dfc.devfreq.opps ∧
      ∀ (i a b : Nat), pt[i]? = some a → pt[i + 1]? = some b → b ≤ a := by
  obtain ⟨os, hlen, hmem, hsorted, hrun⟩ := gen_tables_built ext dfc halloc1 halloc2 hnodup h32
  have hsome : dfc.power_ops.isSome = true := by rw [hops]; rfl
  have hslot : os.map (fun o =>
      to_u32 ((get_dynamic_power dfc o.rate (o.u_volt / 1000)).getD 0))
      = os.map (fun o =>
        ops.dyn_power_coeff * (o.rate / 1000000) * (o.u_volt / 1000) ^ 2 / 1000000000) := by
    apply List.map_congr_left
    intro o ho
    have hr := h32 _ (mem_available_rates _ o (hmem o ho).1 (hmem o ho).2)
    obtain ⟨hf1, hf2⟩ := hfit o (hmem o ho).1 (hmem o ho).2
    have hmhz : o.rate / 1000000 < 2 ^ 32 := lt_of_le_of_lt (Nat.div_le_self _ _) hr
    have hsq : ops.dyn_power_coeff * (o.rate / 1000000) * (o.u_volt / 1000) * (o.u_volt / 1000)
        = ops.dyn_power_coeff * (o.rate / 1000000) * (o.u_volt / 1000) ^ 2 := by
      rw [Nat.pow_two, Nat.mul_assoc (ops.dyn_power_coeff * (o.rate / 1000000))]
    rw [get_dynamic_power_analytic dfc ops _ _ hops hnone, Option.getD_some,
      Nat.mod_eq_of_lt hmhz, hsq, Nat.mod_eq_of_lt hf1]
    exact Nat.mod_eq_of_lt hf2
  refine ⟨_, os.map (fun o =>
      to_u32 ((get_dynamic_power dfc o.rate (o.u_volt / 1000)).getD 0)), hrun,
    by simp only [hsome, if_true], by rw [List.length_map, hlen], ?_⟩
  intro i a b ha hb
  rw [hslot, List.getElem?_map] at ha hb
  cases hoi : os[i]? with
  | none =>
    rw [hoi] at ha
    cases ha
  | some oi =>
    cases hoj : os[i + 1]? with
    | none =>
      rw [hoj] at hb
      cases hb
    | some oj =>
      rw [hoi] at ha
      rw [hoj] at hb
      have ha1 := Option.some.inj ha
      have hb1 := Option.some.inj hb
      have hrate := slots_rate_antitone os hsorted i (i + 1) oi oj hoi hoj (Nat.le_succ i)
      have hmi := hmem oi (List.getElem?_mem hoi)
      have hmj := hmem oj (List.getElem?_mem hoj)
      have hv := hvolt oj hmj.1 oi hmi.1 hmj.2 hmi.2 hrate
      rw [← ha1, ← hb1]
      exact analytic_power_mono _ _ _ _ _ hrate hv

/-- C17 (witness): with coefficient 2000 the source holding 800, 500 and
1000 MHz at 800, 700 and 900 mV yields the power table [1620, 1024, 490]
mW. -/
theorem gen_tables_power_table_monotone_witness :
    observe_tables (devfreq_cooling_gen_tables example_ext_ok
        (fresh_dfc example_devfreq_unordered (some example_analytic_ops)))
      = some (0, [1000000000, 800000000, 500000000], 3, some [1620, 1024, 490])
    ∧ (∃ dfc1 pt, devfreq_cooling_gen_tables example_ext_ok
          (fresh_dfc example_devfreq_unordered (some example_analytic_ops)) = some (0, dfc1) ∧
        dfc1.power_table = some pt ∧
        pt.length = dev_pm_opp_get_opp_count
          (fresh_dfc example_devfreq_unordered (some example_analytic_ops)).devfreq.opps ∧
        ∀ (i a b : Nat), pt[i]? = some a → pt[i + 1]? = some b → b ≤ a) :=
  ⟨by decide,
    gen_tables_power_table_monotone example_ext_ok
      (fresh_dfc example_devfreq_unordered (some example_analytic_ops)) example_analytic_ops
      rfl rfl (by decide) (by decide) rfl rfl (by decide) (by decide)⟩

/-- C17 (counterexample): with the built-in formula and coefficient 1000 *
2^31, the source holding 1 MHz and 2 MHz, both at 1000 mV (voltage
non-decreasing in frequency), yields the power table [0, 2^31]:
PowerTable[1] > PowerTable[0], because the power 2^32 mW of 2 MHz does not
fit the `u32` slot. -/
theorem gen_tables_power_table_monotone_counterexample :
    observe_tables (devfreq_cooling_gen_tables example_ext_ok
        (fresh_dfc example_devfreq_slow (some example_huge_ops)))
      = some (0, [2000000, 1000000], 2, some [0, 2147483648])
    ∧ example_huge_ops.get_dynamic_power.isNone = true
    ∧ (∀ o1 ∈ example_devfreq_slow.opps, ∀ o2 ∈ example_devfreq_slow.opps,
        o1.rate ≤ o2.rate → o1.u_volt ≤ o2.u_volt) := by
  decide

/-! ## C18: failures of the table builder -/

/-- C18 (amended): `devfreq_cooling_gen_tables` fails if and only if one of
its two `kcalloc` calls fails or, at some step i < N, the operating-point
source resolves no operating point at or below the current ceiling; it
returns -ENOMEM in the first case and the source's error in the second, and
in both cases installs nothing: the device's freq_table, power_table and
freq_table_size are the same after the call as before it. -/
theorem gen_tables_failure (ext : External) (dfc : devfreq_cooling_device) :
    ∃ ret dfc1, devfreq_cooling_gen_tables ext dfc = some (ret, dfc1) ∧
      (ret ≠ 0 ↔
        ((dfc.power_ops.isSome = true ∧ ext.kcalloc_power_table = false) ∨
          ext.kcalloc_freq_table = false) ∨
        ∃ i, i < dev_pm_opp_get_opp_count dfc.devfreq.opps ∧
          ∃ c, spec_ceiling dfc.devfreq.opps ULONG_MAX i = some c ∧
            find_freq_floor dfc.devfreq.opps c = none) ∧
      (ret ≠ 0 → dfc1.freq_table = dfc.freq_table ∧ dfc1.power_table = dfc.power_table ∧
        dfc1.freq_table_size = dfc.freq_table_size) ∧
      (((dfc.power_ops.isSome = true ∧ ext.kcalloc_power_table = false) ∨
          ext.kcalloc_freq_table = false) → ret = -ENOMEM) ∧
      (¬ ((dfc.power_ops.isSome = true ∧ ext.kcalloc_power_table = false) ∨
          ext.kcalloc_freq_table = false) → ret ≠ 0 →
        ∃ i, i < dev_pm_opp_get_opp_count dfc.devfreq.opps ∧
          ∃ c, spec_ceiling dfc.devfreq.opps ULONG_MAX i = some c ∧
            dev_pm_opp_find_freq_floor dfc.devfreq.opps c = Except.error ret) := by
  have hmem : (-ENOMEM : Int) ≠ 0 := by decide
  have hrange : (-ERANGE : Int) ≠ 0 := by decide
  by_cases h1 : dfc.power_ops.isSome = true ∧ ext.kcalloc_power_table = false
  · refine ⟨-ENOMEM, dfc, ?_, ⟨fun _ => Or.inl (Or.inl h1), fun _ => hmem⟩,
      fun _ => ⟨rfl, rfl, rfl⟩, fun _ => rfl, fun h => absurd (Or.inl h1) h⟩
    unfold devfreq_cooling_gen_tables
    dsimp only
    rw [if_pos h1]
  · by_cases h2 : ext.kcalloc_freq_table = false
    · refine ⟨-ENOMEM, dfc, ?_, ⟨fun _ => Or.inl (Or.inr h2), fun _ => hmem⟩,
        fun _ => ⟨rfl, rfl, rfl⟩, fun _ => rfl, fun h => absurd (Or.inr h2) h⟩
      unfold devfreq_cooling_gen_tables
      dsimp only
      rw [if_neg h1, if_pos h2]
    · have halloc : ¬ ((dfc.power_ops.isSome = true ∧ ext.kcalloc_power_table = false) ∨
          ext.kcalloc_freq_table = false) := fun h => h.elim h1 h2
      rcases gen_tables_loop_outcome dfc (dev_pm_opp_get_opp_count dfc.devfreq.opps)
          ULONG_MAX [] [] with ⟨⟨r, hok⟩, hall⟩ | ⟨hfail, i, hi, c, hc, hfloor⟩
      · obtain ⟨ft, pt⟩ := r
        refine ⟨0, { dfc with
            power_table := if dfc.power_ops.isSome then some pt else dfc.power_table,
            freq_table := ft,
            freq_table_size := dev_pm_opp_get_opp_count dfc.devfreq.opps },
          ?_, ⟨fun h => (h rfl).elim, fun h => ?_⟩, fun h => (h rfl).elim,
          fun h => absurd h halloc, fun _ h => (h rfl).elim⟩
        · unfold devfreq_cooling_gen_tables
          dsimp only
          rw [if_neg h1, if_neg h2, hok]
        · rcases h with h | ⟨i, hi, c, hc, hfloor⟩
          · exact absurd h halloc
          · obtain ⟨c1, o, hc1, ho⟩ := hall i hi
            rw [hc] at hc1
            cases hc1
            rw [hfloor] at ho
            cases ho
      · refine ⟨-ERANGE, dfc, ?_, ⟨fun _ => Or.inr ⟨i, hi, c, hc, hfloor⟩, fun _ => hrange⟩,
          fun _ => ⟨rfl, rfl, rfl⟩, fun h => absurd h halloc, fun _ _ => ⟨i, hi, c, hc, ?_⟩⟩
        · unfold devfreq_cooling_gen_tables
          dsimp only
          rw [if_neg h1, if_neg h2, hfail]
        · unfold dev_pm_opp_find_freq_floor
          rw [hfloor]

/-- C18 (witness): for a source that holds two available operating points at
500 MHz (N = 3), step 2 of the builder resolves no operating point at or
below its ceiling 499999999 Hz; the builder returns the source's -ERANGE and
installs nothing. -/
theorem gen_tables_failure_witness :
    observe_tables (devfreq_cooling_gen_tables example_ext_ok
        (fresh_dfc example_devfreq_twice none))
      = some (-ERANGE, [], 0, none)
    ∧ spec_ceiling example_devfreq_twice.opps ULONG_MAX 2 = some 499999999
    ∧ find_freq_floor example_devfreq_twice.opps 499999999 = none
    ∧ (∃ ret dfc1, devfreq_cooling_gen_tables example_ext_ok
          (fresh_dfc example_devfreq_twice none) = some (ret, dfc1)) := by
  obtain ⟨ret, dfc1, h, _⟩ :=
    gen_tables_failure example_ext_ok (fresh_dfc example_devfreq_twice none)
  exact ⟨by decide, by decide, by decide, ret, dfc1, h⟩

/-- C18 (counterexample): the source holding 800, 500 and 1000 MHz resolves
an operating point at every step (with successful allocations the builder
returns 0), and yet the builder fails, with -ENOMEM, when the `kcalloc` of
the frequency table fails. -/
theorem gen_tables_failure_counterexample :
    observe_tables (devfreq_cooling_gen_tables example_ext_nomem
        (fresh_dfc example_devfreq_unordered none))
      = some (-ENOMEM, [], 0, none)
    ∧ observe_tables (devfreq_cooling_gen_tables example_ext_ok
        (fresh_dfc example_devfreq_unordered none))
      = some (0, [1000000000, 800000000, 500000000], 3, none)
    ∧ ((spec_ceiling example_devfreq_unordered.opps ULONG_MAX 0).bind
        (find_freq_floor example_devfreq_unordered.opps)).isSome = true
    ∧ ((spec_ceiling example_devfreq_unordered.opps ULONG_MAX 1).bind
        (find_freq_floor example_devfreq_unordered.opps)).isSome = true
    ∧ ((spec_ceiling example_devfreq_unordered.opps ULONG_MAX 2).bind
        (find_freq_floor example_devfreq_unordered.opps)).isSome = true := by
  decide

/-! ## C19: `power2state` is monotonic in the budget -/

/-- C19 (amended): for every power table of length N >= 1, every fixed static
power (below 2^32) and utilisation sample, and every two budgets p1 <= p2
with p1 - static >= -2^31, p2 - static < 2^31, max(0, p2 - static) *
total_time < 2^64 and scaledDynamic(p2) < 2^32, power2state(p2) <=
power2state(p1): within the range of the arithmetic a larger budget never
selects a lower-performance state. -/
theorem power2state_monotone (dfc : devfreq_cooling_device) (pt : List Nat)
    (p1 p2 sp : Nat)
    (hpt : dfc.power_table = some pt) (hN : dfc.freq_table_size = pt.length)
    (h1 : 1 ≤ pt.length) (hlen : pt.length < 2 ^ 64)
    (hsp : get_static_power dfc dfc.devfreq.last_status.current_frequency = some sp)
    (hs32 : sp < 2 ^ 32) (hle : p1 ≤ p2)
    (hlo : sp ≤ p1 + 2 ^ 31) (hhi : p2 < sp + 2 ^ 31)
    (hmul : (p2 - sp) * dfc.devfreq.last_status.total_time < 2 ^ 64)
    (hq : spec_scaledDynamic p2 sp dfc.devfreq.last_status.total_time
      dfc.devfreq.last_status.busy_time < 2 ^ 32) :
    ∃ i1 i2, devfreq_cooling_power2state dfc p1 = Result.ok i1 ∧
      devfreq_cooling_power2state dfc p2 = Result.ok i2 ∧ i2 ≤ i1 := by
  have hu : to_u32 sp = sp := Nat.mod_eq_of_lt hs32
  have hmono : (p1 - sp) * dfc.devfreq.last_status.total_time
      ≤ (p2 - sp) * dfc.devfreq.last_status.total_time :=
    Nat.mul_le_mul_right _ (Nat.sub_le_sub_right hle _)
  have hscaled : spec_scaledDynamic p1 sp dfc.devfreq.last_status.total_time
      dfc.devfreq.last_status.busy_time
      ≤ spec_scaledDynamic p2 sp dfc.devfreq.last_status.total_time
      dfc.devfreq.last_status.busy_time := by
    unfold spec_scaledDynamic
    exact Nat.div_le_div_right hmono
  have key1 := power2state_dyn_power_exact p1 sp dfc.devfreq.last_status.total_time
    dfc.devfreq.last_status.busy_time (by omega) hlo (lt_of_le_of_lt hmono hmul)
    (lt_of_le_of_lt hscaled hq)
  have key2 := power2state_dyn_power_exact p2 sp dfc.devfreq.last_status.total_time
    dfc.devfreq.last_status.busy_time hhi (by omega) hmul hq
  obtain ⟨r1, hr1, hlt1, _, h14⟩ := power2state_run dfc pt p1 sp hpt hN h1 hlen hsp
  obtain ⟨r2, hr2, hlt2, h23, _⟩ := power2state_run dfc pt p2 sp hpt hN h1 hlen hsp
  rw [hu, key1] at h14
  rw [hu, key2] at h23
  refine ⟨r1, r2, hr1, hr2, ?_⟩
  by_contra hgt
  rcases h14 with ⟨p, hp, hfit⟩ | hlast
  · have := h23 r1 p (by omega) hp
    omega
  · omega

/-- C19 (witness): on the table [100, 60, 20] with busy_time = total_time and
no static power, the budgets 60 <= 1000 select states 1 and 0. -/
theorem power2state_monotone_witness :
    (∃ i1 i2, devfreq_cooling_power2state (example_dfc 1 1) 60 = Result.ok i1 ∧
      devfreq_cooling_power2state (example_dfc 1 1) 1000 = Result.ok i2 ∧ i2 ≤ i1)
    ∧ devfreq_cooling_power2state (example_dfc 1 1) 60 = Result.ok 1
    ∧ devfreq_cooling_power2state (example_dfc 1 1) 1000 = Result.ok 0 :=
  ⟨power2state_monotone (example_dfc 1 1) [100, 60, 20] 60 1000 0 rfl rfl
      (by decide) (by decide) rfl (by decide) (by decide) (by decide) (by decide)
      (by decide) (by decide),
    by decide, by decide⟩

/-- C19 (counterexample): on the table [100, 60, 20] with busy_time =
total_time = 1 and no static power, the budget 100 selects state 0 but the
larger budget 2^31 selects state 2; and with total_time = 3, busy_time = 1
the budget 1000 selects state 0 but the larger budget 1431655766 scales to
2^32 + 2, of which the low 32 bits are 2, and selects state 2. -/
theorem power2state_monotone_counterexample :
    (devfreq_cooling_power2state (example_dfc 1 1) 100 = Result.ok 0
      ∧ devfreq_cooling_power2state (example_dfc 1 1) (2 ^ 31) = Result.ok 2
      ∧ 100 ≤ 2 ^ 31)
    ∧ (devfreq_cooling_power2state (example_dfc 3 1) 1000 = Result.ok 0
      ∧ devfreq_cooling_power2state (example_dfc 3 1) 1431655766 = Result.ok 2
      ∧ 1000 ≤ 1431655766) := by
  decide

/-! ## C20: the requested power stays within the state's envelope -/

/-- C20 (amended): in a strictly descending frequency table, for every state
s < N whose envelope PowerTable[s] + staticPower (the static power as `u32`)
is below 2^32, with current frequency freq_table[s] and every utilisation
sample with total_time >= 1 and busy_time <= total_time, the power reported
by `devfreq_cooling_get_requested_power` (in either configuration) is <= the
power reported by `devfreq_cooling_state2power(s)`. -/
theorem requested_power_le_state2power (cfg : Bool) (dfc : devfreq_cooling_device)
    (pt : List Nat) (s p sp : Nat)
    (hlen : dfc.freq_table.length = dfc.freq_table_size)
    (hsz : dfc.freq_table_size < 2 ^ 64)
    (hsorted : dfc.freq_table.Sorted (· > ·))
    (hs : dfc.freq_table[s]? = some dfc.devfreq.last_status.current_frequency)
    (hpt : dfc.power_table = some pt) (hp : pt[s]? = some p)
    (hsp : get_static_power dfc dfc.devfreq.last_status.current_frequency = some sp)
    (htot : 1 ≤ dfc.devfreq.last_status.total_time)
    (hbusy : dfc.devfreq.last_status.busy_time ≤ dfc.devfreq.last_status.total_time)
    (hsum : p + sp % 2 ^ 32 < 2 ^ 32) :
    ∃ a b, devfreq_cooling_get_requested_power cfg dfc = Result.ok a ∧
      devfreq_cooling_state2power dfc s = Result.ok b ∧ a ≤ b := by
  have hslt : s < dfc.freq_table.length := by
    by_contra hge
    rw [List.getElem?_eq_none (by omega)] at hs
    cases hs
  have hstate := freq_get_state_first dfc _ s hlen hs
    (sorted_first_index dfc.freq_table hsorted s _ hs)
  have hvalid : s ≠ THERMAL_CSTATE_INVALID := by
    unfold THERMAL_CSTATE_INVALID ULONG_MAX
    omega
  have hreq := get_requested_power_eval cfg dfc pt s p sp hstate hvalid hpt hp hsp (by omega)
  have henv := state2power_eval dfc pt s _ p sp (by omega) hs hpt hp hsp
  refine ⟨_, _, hreq, henv, ?_⟩
  have hq : to_ulong (p * dfc.devfreq.last_status.busy_time)
      / dfc.devfreq.last_status.total_time ≤ p := by
    apply Nat.div_le_of_le_mul
    unfold to_ulong
    calc p * dfc.devfreq.last_status.busy_time % 2 ^ 64
        ≤ p * dfc.devfreq.last_status.busy_time := Nat.mod_le _ _
      _ ≤ p * dfc.devfreq.last_status.total_time := Nat.mul_le_mul_left p hbusy
      _ = dfc.devfreq.last_status.total_time * p := Nat.mul_comm _ _
  generalize to_ulong (p * dfc.devfreq.last_status.busy_time)
    / dfc.devfreq.last_status.total_time = q at hq
  unfold to_u32
  omega

/-- C20 (witness): the example device at 1000 MHz (state 0, 100 mW, 7 mW
static power), busy 1000 of 2000 time units, requests 57 mW, within the 107
mW of state 0. -/
theorem requested_power_le_state2power_witness :
    (∃ a b, devfreq_cooling_get_requested_power false (example_dfc_static 7 2000 1000)
        = Result.ok a ∧
      devfreq_cooling_state2power (example_dfc_static 7 2000 1000) 0 = Result.ok b ∧ a ≤ b)
    ∧ devfreq_cooling_get_requested_power false (example_dfc_static 7 2000 1000)
        = Result.ok 57
    ∧ devfreq_cooling_state2power (example_dfc_static 7 2000 1000) 0 = Result.ok 107 :=
  ⟨requested_power_le_state2power false (example_dfc_static 7 2000 1000) [100, 60, 20]
      0 100 7 rfl (by decide) (by decide) rfl rfl rfl (by decide) (by decide) (by decide)
      (by decide),
    by decide, by decide⟩

/-- C20 (counterexample): with PowerTable[0] = 2^31 + 100 mW and a static
power of 2^31 mW, at 50% utilisation the requested power is 2^30 + 50 + 2^31
= 3221225522 mW while state2power(0) reports (2^32 + 100) mod 2^32 = 100 mW,
in both configurations. -/
theorem requested_power_le_state2power_counterexample :
    devfreq_cooling_get_requested_power true example_dfc_megawatt = Result.ok 3221225522
    ∧ devfreq_cooling_get_requested_power false example_dfc_megawatt = Result.ok 3221225522
    ∧ devfreq_cooling_state2power example_dfc_megawatt 0 = Result.ok 100
    ∧ example_dfc_megawatt.freq_table[0]? = some 1000000000
    ∧ example_dfc_megawatt.devfreq.last_status.current_frequency = 1000000000 := by
  decide

end DevfreqCooling
